import Mathlib

/-!
# Intrinsic: component tables, property reflection, cascade and swarm tick

A shallow embedding of `CameraManager` (IntrinsicCoreComponentsCamera.h),
`PostEffectManager` (IntrinsicCoreResourcesPostEffect.h) and `SwarmManager`
(IntrinsicCoreComponentsSwarm.cpp).

Conventions.

* A structure-of-arrays field (`_INTR_ARRAY(T)` resized to the manager capacity and indexed
  by `p_Ref._id`) is a function `Nat → T`; a write `_field(ref) = v` is `Function.update`.
* `float` values live in a linear ordered field `F` with exact arithmetic (finite values
  only); a literal such as `0.3f` is its decimal value.  Where a statement is about bit-exact
  equality through a rounding operation, the IEEE-754 binary32 rounding is modelled
  explicitly on `ℚ` (section `Float32`).
* `uint32_t` counters and sizes are natural numbers; the sequences involved stay far below
  `2 ^ 32` entries.
* Code that is called but is not part of the translated sources (the rapidjson helper layer,
  the manager base classes, the glm math library, the random source, the physics ray cast)
  enters as a parameter.
-/

namespace Intrinsic

/-! ## References -/

/-- Modelled from the spec: `Dod::Ref`, an opaque handle made of a logical index and a validity
tag.  The default-constructed `Dod::Ref()` is the invalid reference. -/
inductive Ref where
  | invalid : Ref
  | valid (id : Nat) : Ref
  deriving DecidableEq, Repr

/-! ## rapidjson objects -/

/-- The members of a `rapidjson::Value` of object type, in insertion order. -/
abbrev Properties (J : Type) := List (String × J)

namespace Properties

variable {J : Type}

/-- `Value::AddMember(name, value, allocator)`: appends a member, duplicates are not merged. -/
def AddMember (p : Properties J) (name : String) (v : J) : Properties J :=
  p ++ [(name, v)]

/-- `Value::FindMember(name)`: the first member carrying that name. -/
def FindMember (p : Properties J) (name : String) : Option J :=
  List.lookup name p

/-- `Value::HasMember(name)`. -/
def HasMember (p : Properties J) (name : String) : Bool :=
  (FindMember p name).isSome

end Properties

/-- The JSON helper layer of the reflection code, `_INTR_CREATE_PROP(document, generateDesc,
category, editor, value, readOnly, internal)` and `JsonHelper::readPropertyFloat(value)`.
It is not among the translated sources and is a parameter of the reflection functions. -/
structure JsonHelper (F J : Type) where
  createProp : Bool → String → String → F → Bool → Bool → J
  readPropertyFloat : J → F

/-- The helper layer reads back the number a property was created from. -/
def JsonHelper.Lossless {F J : Type} (h : JsonHelper F J) : Prop :=
  ∀ g c e v r i, h.readPropertyFloat (h.createProp g c e v r i) = v

/-- Modelled from the spec: the value stored under a property name, `{type-tag, value}`
(§4.4).  The record keeps every argument handed to `_INTR_CREATE_PROP`. -/
structure Property (F : Type) where
  generateDesc : Bool
  category : String
  typeTag : String
  value : F
  readOnly : Bool
  internal : Bool
  deriving DecidableEq

/-- Modelled from the spec: the helper layer over `Property`: creation records the
arguments, reading returns the `value` entry. -/
def specJsonHelper (F : Type) : JsonHelper F (Property F) where
  createProp := fun g c e v r i => ⟨g, c, e, v, r, i⟩
  readPropertyFloat := fun p => p.value

/-! ## glm scalar functions -/

namespace glm

variable {F : Type} [LinearOrderedField F]

/-- GLSL `mix(x, y, a) = x * (1 - a) + y * a`, evaluated without rounding.  The program
evaluates it in binary32: that evaluation is `Float32.mix`. -/
def mix (x y a : F) : F := x * (1 - a) + y * a

/-- GLSL `clamp(x, lo, hi) = min(max(x, lo), hi)`. -/
def clamp (x lo hi : F) : F := min (max x lo) hi

end glm

/-! ## IEEE-754 binary32 rounding -/

namespace Float32

/-- Round the positive ratio `n / d` to the nearest integer, ties to even. -/
def roundHalfEven (n d : Nat) : Nat :=
  if 2 * (n % d) < d then n / d
  else if d < 2 * (n % d) then n / d + 1
  else if (n / d) % 2 = 0 then n / d else n / d + 1

/-- Number of doublings of `n / d` needed to reach `2 ^ 23` (zero when already there). -/
def scaleUp : Nat → Nat → Nat → Nat
  | 0, _, _ => 0
  | fuel + 1, n, d => if 2 ^ 23 * d ≤ n then 0 else scaleUp fuel (2 * n) d + 1

/-- Number of halvings of `n / d` needed to get below `2 ^ 24` (zero when already there). -/
def scaleDown : Nat → Nat → Nat → Nat
  | 0, _, _ => 0
  | fuel + 1, n, d => if n < 2 ^ 24 * d then 0 else scaleDown fuel n (2 * d) + 1

/-- Nearest binary32 value of the positive ratio `n / d`: a 24 bit significand, round to
nearest, ties to even (normal range, no overflow). -/
def roundMag (n d : Nat) : ℚ :=
  (roundHalfEven (n * 2 ^ scaleUp 512 n d) (d * 2 ^ scaleDown 512 n d) : ℚ)
    * 2 ^ scaleDown 512 n d / 2 ^ scaleUp 512 n d

/-- Nearest binary32 value of a rational. -/
def round (x : ℚ) : ℚ :=
  if x = 0 then 0
  else if 0 < x then roundMag x.num.natAbs x.den
  else - roundMag x.num.natAbs x.den

/-- The binary32 product: the exact product rounded once. -/
def mul (a b : ℚ) : ℚ := round (a * b)

/-- `glm::degrees(float)`: one binary32 multiplication by the binary32 value nearest to
`180 / π`, which is `15019745 / 2 ^ 18` (bit pattern `0x42652EE1`). -/
def degrees (x : ℚ) : ℚ := mul x (15019745 / 262144)

/-- `glm::radians(float)`: one binary32 multiplication by the binary32 value nearest to
`π / 180`, which is `9370165 / 2 ^ 29` (bit pattern `0x3C8EFA35`). -/
def radians (x : ℚ) : ℚ := mul x (9370165 / 536870912)

end Float32

/-! ## PostEffect resources -/

/-- `PostEffectData`: the two description arrays, and the state of the base class
`Dod::Resources::ResourceDataBase`. -/
structure PostEffectData (F β : Type) where
  base : β
  descVolumetricLightingScattering : Nat → F
  descVolumetricLightingLocalLightIntensity : Nat → F

/-- The reflection functions of `Dod::Resources::ResourceManagerBase`, called first by the
PostEffect ones.  They are not among the translated sources; they see the base class data. -/
structure ResourceManagerBase (β J : Type) where
  _compileDescriptor : β → Nat → Bool → Properties J → Properties J
  _initFromDescriptor : β → Nat → Properties J → β

namespace PostEffectManager

open Properties

variable {F β J : Type}

/-- `PostEffectManager::resetToDefault`. -/
def resetToDefault [LinearOrderedField F] (d : PostEffectData F β) (p_Ref : Nat) :
    PostEffectData F β :=
  let d1 := { d with
    descVolumetricLightingScattering :=
      Function.update d.descVolumetricLightingScattering p_Ref 0 }
  { d1 with
    descVolumetricLightingLocalLightIntensity :=
      Function.update d1.descVolumetricLightingLocalLightIntensity p_Ref 0 }

/-- `PostEffectManager::compileDescriptor`; the result is the final `p_Properties`. -/
def compileDescriptor (h : JsonHelper F J) (b : ResourceManagerBase β J)
    (d : PostEffectData F β) (p_Ref : Nat) (p_GenerateDesc : Bool)
    (p_Properties : Properties J) : Properties J :=
  let p0 := b._compileDescriptor d.base p_Ref p_GenerateDesc p_Properties
  let p1 := AddMember p0 "Scattering"
    (h.createProp p_GenerateDesc "VolumetricLighting" "float"
      (d.descVolumetricLightingScattering p_Ref) false false)
  AddMember p1 "LocalLightIntensity"
    (h.createProp p_GenerateDesc "VolumetricLighting" "float"
      (d.descVolumetricLightingLocalLightIntensity p_Ref) false false)

/-- `PostEffectManager::initFromDescriptor`. -/
def initFromDescriptor (h : JsonHelper F J) (b : ResourceManagerBase β J)
    (d : PostEffectData F β) (p_Ref : Nat) (p_Properties : Properties J) :
    PostEffectData F β :=
  let d0 := { d with base := b._initFromDescriptor d.base p_Ref p_Properties }
  let d1 :=
    match FindMember p_Properties "Scattering" with
    | some v => { d0 with
        descVolumetricLightingScattering :=
          Function.update d0.descVolumetricLightingScattering p_Ref (h.readPropertyFloat v) }
    | none => d0
  match FindMember p_Properties "LocalLightIntensity" with
  | some v => { d1 with
      descVolumetricLightingLocalLightIntensity :=
        Function.update d1.descVolumetricLightingLocalLightIntensity p_Ref
          (h.readPropertyFloat v) }
  | none => d1

/-- `PostEffectManager::blendPostEffect`: two assignments, the second one reads the table
left by the first. -/
def blendPostEffect [LinearOrderedField F] (d : PostEffectData F β)
    (p_Target p_Left p_Right : Nat) (p_BlendFactor : F) : PostEffectData F β :=
  let d1 := { d with
    descVolumetricLightingScattering :=
      Function.update d.descVolumetricLightingScattering p_Target
        (glm.mix (d.descVolumetricLightingScattering p_Left)
          (d.descVolumetricLightingScattering p_Right) p_BlendFactor) }
  { d1 with
    descVolumetricLightingLocalLightIntensity :=
      Function.update d1.descVolumetricLightingLocalLightIntensity p_Target
        (glm.mix (d1.descVolumetricLightingLocalLightIntensity p_Left)
          (d1.descVolumetricLightingLocalLightIntensity p_Right) p_BlendFactor) }

end PostEffectManager

/-! ## Camera components -/

/-- `CameraData`: description arrays, the owned frustum reference, forward and up vectors
(`V` is `glm::vec3`). -/
structure CameraData (F V : Type) where
  descFov : Nat → F
  descNearPlane : Nat → F
  descFarPlane : Nat → F
  frustum : Nat → Ref
  forward : Nat → V
  up : Nat → V

namespace CameraManager

open Properties

variable {F V J : Type}

/-- `CameraManager::resetToDefault`; `radians` is `glm::radians`. -/
def resetToDefault [LinearOrderedField F] (radians : F → F) (d : CameraData F V)
    (p_Ref : Nat) : CameraData F V :=
  let d1 := { d with descFov := Function.update d.descFov p_Ref (radians 75) }
  let d2 := { d1 with descNearPlane := Function.update d1.descNearPlane p_Ref 1 }
  { d2 with descFarPlane := Function.update d2.descFarPlane p_Ref 10000 }

/-- `CameraManager::compileDescriptor`; `degrees` is `glm::degrees`, the result is the final
`p_Properties`. -/
def compileDescriptor (h : JsonHelper F J) (degrees : F → F) (d : CameraData F V)
    (p_Ref : Nat) (p_GenerateDesc : Bool) (p_Properties : Properties J) : Properties J :=
  let p1 := AddMember p_Properties "fov"
    (h.createProp p_GenerateDesc "Camera" "float" (degrees (d.descFov p_Ref)) false false)
  let p2 := AddMember p1 "nearPlane"
    (h.createProp p_GenerateDesc "Camera" "float" (d.descNearPlane p_Ref) false false)
  AddMember p2 "farPlane"
    (h.createProp p_GenerateDesc "Camera" "float" (d.descFarPlane p_Ref) false false)

/-- `CameraManager::initFromDescriptor`; `p_GenerateDesc` is not used by the body. -/
def initFromDescriptor (h : JsonHelper F J) (radians : F → F) (d : CameraData F V)
    (p_Ref : Nat) (_p_GenerateDesc : Bool) (p_Properties : Properties J) : CameraData F V :=
  let d1 :=
    match FindMember p_Properties "fov" with
    | some v => { d with
        descFov := Function.update d.descFov p_Ref (radians (h.readPropertyFloat v)) }
    | none => d
  let d2 :=
    match FindMember p_Properties "nearPlane" with
    | some v => { d1 with
        descNearPlane := Function.update d1.descNearPlane p_Ref (h.readPropertyFloat v) }
    | none => d1
  match FindMember p_Properties "farPlane" with
  | some v => { d2 with
      descFarPlane := Function.update d2.descFarPlane p_Ref (h.readPropertyFloat v) }
  | none => d2

end CameraManager

/-! ## glm vectors -/

/-- `glm::vec3`. -/
structure Vec3 (F : Type) where
  x : F
  y : F
  z : F
  deriving DecidableEq

namespace Vec3

variable {F : Type} [LinearOrderedField F]

instance : Zero (Vec3 F) := ⟨⟨0, 0, 0⟩⟩

instance : Add (Vec3 F) := ⟨fun a b => ⟨a.x + b.x, a.y + b.y, a.z + b.z⟩⟩

instance : Sub (Vec3 F) := ⟨fun a b => ⟨a.x - b.x, a.y - b.y, a.z - b.z⟩⟩

instance : HMul (Vec3 F) F (Vec3 F) := ⟨fun a s => ⟨a.x * s, a.y * s, a.z * s⟩⟩

instance : HMul F (Vec3 F) (Vec3 F) := ⟨fun s a => ⟨s * a.x, s * a.y, s * a.z⟩⟩

instance : HDiv (Vec3 F) F (Vec3 F) := ⟨fun a s => ⟨a.x / s, a.y / s, a.z / s⟩⟩

instance : HAdd (Vec3 F) F (Vec3 F) := ⟨fun a s => ⟨a.x + s, a.y + s, a.z + s⟩⟩

/-- The sum of a list of vectors, component by component. -/
def sum (l : List (Vec3 F)) : Vec3 F :=
  ⟨(l.map Vec3.x).sum, (l.map Vec3.y).sum, (l.map Vec3.z).sum⟩

/-- The arithmetic mean of a list of vectors: the sum divided by the number of entries. -/
def mean (l : List (Vec3 F)) : Vec3 F :=
  sum l / (l.length : F)

end Vec3

namespace glm

variable {F : Type} [LinearOrderedField F]

/-- `glm::dot`. -/
def dot (a b : Vec3 F) : F := a.x * b.x + a.y * b.y + a.z * b.z

/-- `glm::length(v) = sqrt(dot(v, v))`; `sqrt` is the square root of the math library. -/
def length (sqrt : F → F) (v : Vec3 F) : F := sqrt (dot v v)

/-- `glm::distance2(p0, p1) = length2(p1 - p0)`. -/
def distance2 (p0 p1 : Vec3 F) : F := dot (p1 - p0) (p1 - p0)

/-- `glm::normalize(v) = v * inversesqrt(dot(v, v))`. -/
def normalize (sqrt : F → F) (v : Vec3 F) : Vec3 F := v * (1 / sqrt (dot v v))

end glm

/-! ## Swarm components -/

/-- `Boid`: position and velocity. -/
structure Boid (F : Type) where
  pos : Vec3 F
  vel : Vec3 F
  deriving DecidableEq

/-- `SwarmData`: the per-swarm arrays read and written by the functions below. -/
structure SwarmData (F : Type) where
  entity : Nat → Nat
  boids : Nat → List (Boid F)
  nodes : Nat → List Nat
  currentCenterOfMass : Nat → Vec3 F
  currentAverageVelocity : Nat → Vec3 F
  descBoidMeshName : Nat → String

/-- The `NodeManager` arrays touched by the swarm tick (`Q` is `glm::quat`). -/
structure NodeData (F Q : Type) where
  position : Nat → Vec3 F
  orientation : Nat → Q
  worldPosition : Nat → Vec3 F

/-- Collaborators of `SwarmManager::updateSwarms` that are not among the translated sources:
the square root behind `glm::length` and `glm::normalize`, `_INTR_EPSILON`,
`glm::rotation`, `Math::calcRandomNumber` (the value of its n-th call),
`PhysxHelper::raycast` (origin, direction, range; the hit distance if there is a hit),
`NodeManager::getComponentForEntity` and `NodeManager::updateTransforms`. -/
structure SwarmEnv (F Q : Type) where
  sqrt : F → F
  epsilon : F
  rotation : Vec3 F → Vec3 F → Q
  calcRandomNumber : Nat → Nat
  raycast : Vec3 F → Vec3 F → F → Option F
  getComponentForEntity : Nat → Nat
  updateTransforms : NodeData F Q → List Nat → NodeData F Q

/-- State of the engine parts the swarm tick works on; `rng` counts the calls of
`Math::calcRandomNumber` made so far. -/
structure SwarmWorld (F Q : Type) where
  swarm : SwarmData F
  node : NodeData F Q
  rng : Nat

/-- Local state of the boid loop of one swarm. -/
structure SimState (F Q : Type) where
  boids : List (Boid F)
  nodeData : NodeData F Q
  rng : Nat
  newCenterOfMass : Vec3 F
  newAvgVelocity : Vec3 F

namespace SwarmManager

variable {F Q : Type} [LinearOrderedField F]

/-- `#define BOID_COUNT 200u`. -/
def BOID_COUNT : Nat := 200

/-- `boidAcc = 10.0f`. -/
def boidAcc : F := 10

/-- `boidMinDistSqr = 8.0f * 8.0f`. -/
def boidMinDistSqr : F := 8 * 8

/-- `distanceRuleWeight = 0.3f`. -/
def distanceRuleWeight : F := 3 / 10

/-- `targetRuleWeight = 0.9f`. -/
def targetRuleWeight : F := 9 / 10

/-- `minTargetDist = 4.0f`. -/
def minTargetDist : F := 4

/-- `matchVelWeight = 0.025f`. -/
def matchVelWeight : F := 25 / 1000

/-- `centerOfMassWeight = 0.8f`. -/
def centerOfMassWeight : F := 8 / 10

/-- `groundPlaneWeight = 5.0f` (not used by the tick). -/
def groundPlaneWeight : F := 5

/-- `maxVel = 30.0f`. -/
def maxVel : F := 30

/-- `boidsToCheck = 10u` (not used by the tick). -/
def boidsToCheck : Nat := 10

/-- The ground plane height of one swarm tick: a ray cast straight down from the current
center of mass over a range of 1000. -/
def groundPlaneHeight (env : SwarmEnv F Q) (currentCenterOfMass : Vec3 F) : F :=
  match env.raycast currentCenterOfMass ⟨0, -1, 0⟩ 1000 with
  | some distance => (currentCenterOfMass + distance * (⟨0, -1, 0⟩ : Vec3 F)).y + 1
  | none => -10000000

/-- Rule "Fly towards center of mass". -/
def flyTowardsCenter (env : SwarmEnv F Q) (p_DeltaT : F) (currentCenterOfMass : Vec3 F)
    (boid : Boid F) : Boid F :=
  let boidToCenter := currentCenterOfMass - boid.pos
  let boidToCenterDist := glm.length env.sqrt boidToCenter
  if boidToCenterDist > env.epsilon then
    { boid with
      vel := boid.vel +
        boidToCenter / boidToCenterDist * p_DeltaT * (boidAcc : F) * (centerOfMassWeight : F) }
  else boid

/-- One pass of the loop of rule "Keep a distance".  `boids` is the array at the start of
the outer iteration, `i` the outer index whose element `boid` is being updated in place,
`rng` the number of random draws before the loop and `k` the counter of this loop.  The
source names this counter `boidIdx` too, so the test `boidToCompareIdx == boidIdx` compares
the drawn index with `k`. -/
def keepDistanceStep (env : SwarmEnv F Q) (p_DeltaT : F) (boids : List (Boid F)) (i rng : Nat)
    (boid : Boid F) (k : Nat) : Boid F :=
  let boidToCompareIdx := env.calcRandomNumber (rng + k) % boids.length
  if boidToCompareIdx = k then boid
  else
    match (boids.set i boid)[boidToCompareIdx]? with
    | none => boid
    | some boidToCompare =>
      let distSqr := glm.distance2 boidToCompare.pos boid.pos
      if distSqr < (boidMinDistSqr : F) ∧ distSqr > env.epsilon then
        { boid with
          vel := boid.vel +
            (boidAcc : F) * glm.normalize env.sqrt (boidToCompare.pos - boid.pos) * (-1 : F)
              * p_DeltaT * (distanceRuleWeight : F) }
      else boid

/-- Rule "Keep a distance": `min(32, boids.size())` passes. -/
def keepDistance (env : SwarmEnv F Q) (p_DeltaT : F) (boids : List (Boid F)) (i rng : Nat)
    (boid : Boid F) : Boid F :=
  (List.range (min 32 boids.length)).foldl (keepDistanceStep env p_DeltaT boids i rng) boid

/-- Rule "Match velocities". -/
def matchVelocities (p_DeltaT : F) (currentAverageVelocity : Vec3 F) (boid : Boid F) :
    Boid F :=
  { boid with
    vel := boid.vel + (currentAverageVelocity - boid.vel) * (matchVelWeight : F) * p_DeltaT }

/-- Rule "Target the node of the component". -/
def targetNode (env : SwarmEnv F Q) (p_DeltaT : F) (worldPosition : Vec3 F) (boid : Boid F) :
    Boid F :=
  let boidToComponent := worldPosition - boid.pos
  let boidToComponentDist := glm.length env.sqrt boidToComponent
  if boidToComponentDist > env.epsilon ∧ boidToComponentDist > (minTargetDist : F) then
    { boid with
      vel := boid.vel +
        boidToComponent / boidToComponentDist * (boidAcc : F) * p_DeltaT
          * (targetRuleWeight : F) }
  else boid

/-- Step "Avoid the ground plane". -/
def avoidGroundPlane (groundPlaneHeight : F) (boid : Boid F) : Boid F :=
  if boid.pos.y < groundPlaneHeight then
    { pos := { boid.pos with y := groundPlaneHeight }, vel := { boid.vel with y := 0 } }
  else boid

/-- The four rules and the ground plane step, in source order. -/
def applyRules (env : SwarmEnv F Q) (p_DeltaT : F) (currentCenterOfMass : Vec3 F)
    (currentAverageVelocity : Vec3 F) (worldPosition : Vec3 F) (groundPlaneHeight : F)
    (boids : List (Boid F)) (i rng : Nat) (boid : Boid F) : Boid F :=
  let b1 := flyTowardsCenter env p_DeltaT currentCenterOfMass boid
  let b2 := keepDistance env p_DeltaT boids i rng b1
  let b3 := matchVelocities p_DeltaT currentAverageVelocity b2
  let b4 := targetNode env p_DeltaT worldPosition b3
  avoidGroundPlane groundPlaneHeight b4

/-- The speed clamp: `if (velLen > maxVel) boid.vel = boid.vel / velLen * maxVel`, evaluated
without rounding.  The clamp with the arithmetic left open is `clampSpeedWith`; with the
operations of `Float32` that one is the clamp as the program computes it in binary32. -/
def clampSpeed (sqrt : F → F) (boid : Boid F) : Boid F :=
  let velLen := glm.length sqrt boid.vel
  if velLen > (maxVel : F) then { boid with vel := boid.vel / velLen * (maxVel : F) }
  else boid

/-- The integration `boid.pos += boid.vel * p_DeltaT`. -/
def integrate (p_DeltaT : F) (boid : Boid F) : Boid F :=
  { boid with pos := boid.pos + boid.vel * p_DeltaT }

/-- The record one iteration leaves in `boids[i]`: rules, speed clamp, integration. -/
def tickBoid (env : SwarmEnv F Q) (p_DeltaT : F) (currentCenterOfMass : Vec3 F)
    (currentAverageVelocity : Vec3 F) (worldPosition : Vec3 F) (groundPlaneHeight : F)
    (boids : List (Boid F)) (i rng : Nat) (boid : Boid F) : Boid F :=
  integrate p_DeltaT (clampSpeed env.sqrt
    (applyRules env p_DeltaT currentCenterOfMass currentAverageVelocity worldPosition
      groundPlaneHeight boids i rng boid))

/-- One iteration of the boid loop for outer index `boidIdx`. -/
def simulateBoid (env : SwarmEnv F Q) (p_DeltaT : F) (currentCenterOfMass : Vec3 F)
    (currentAverageVelocity : Vec3 F) (swarmNodeRef : Nat) (groundPlaneHeight : F)
    (nodes : List Nat) (s : SimState F Q) (boidIdx : Nat) : SimState F Q :=
  match nodes[boidIdx]?, s.boids[boidIdx]? with
  | some nodeRef, some boid =>
    let b5 := applyRules env p_DeltaT currentCenterOfMass currentAverageVelocity
      (s.nodeData.worldPosition swarmNodeRef) groundPlaneHeight s.boids boidIdx s.rng boid
    let newCenterOfMass := s.newCenterOfMass + b5.pos
    let b6 := clampSpeed env.sqrt b5
    let newAvgVelocity := s.newAvgVelocity + b6.vel
    let b7 := integrate p_DeltaT b6
    { boids := s.boids.set boidIdx b7
      nodeData := { s.nodeData with
        position := Function.update s.nodeData.position nodeRef b7.pos
        orientation := Function.update s.nodeData.orientation nodeRef
          (env.rotation ⟨0, 0, 1⟩ (glm.normalize env.sqrt (b7.vel + (1 / 100 : F)))) }
      rng := s.rng + min 32 s.boids.length
      newCenterOfMass := newCenterOfMass
      newAvgVelocity := newAvgVelocity }
  | _, _ => s

/-- The boid loop of one swarm, run for the first `n` indices. -/
def simulateBoids (env : SwarmEnv F Q) (p_DeltaT : F) (currentCenterOfMass : Vec3 F)
    (currentAverageVelocity : Vec3 F) (swarmNodeRef : Nat) (groundPlaneHeight : F)
    (nodes : List Nat) (s : SimState F Q) (n : Nat) : SimState F Q :=
  (List.range n).foldl
    (simulateBoid env p_DeltaT currentCenterOfMass currentAverageVelocity swarmNodeRef
      groundPlaneHeight nodes) s

/-- The body of the swarm loop of `SwarmManager::updateSwarms` for one entry of `p_Swarms`.
`none` is the failure of `_INTR_ASSERT(boids.size() == nodes.size())`. -/
def updateSwarm (env : SwarmEnv F Q) (p_DeltaT : F) (w : SwarmWorld F Q) (swarmRef : Nat) :
    Option (SwarmWorld F Q) :=
  let boids := w.swarm.boids swarmRef
  let nodes := w.swarm.nodes swarmRef
  if boids.length = nodes.length then
    let currentCenterOfMass := w.swarm.currentCenterOfMass swarmRef
    let currentAverageVelocity := w.swarm.currentAverageVelocity swarmRef
    let swarmNodeRef := env.getComponentForEntity (w.swarm.entity swarmRef)
    let s := simulateBoids env p_DeltaT currentCenterOfMass currentAverageVelocity
      swarmNodeRef (groundPlaneHeight env currentCenterOfMass) nodes
      ⟨boids, w.node, w.rng, 0, 0⟩ boids.length
    some
      { swarm := { w.swarm with
          boids := Function.update w.swarm.boids swarmRef s.boids
          currentCenterOfMass := Function.update w.swarm.currentCenterOfMass swarmRef
            (s.newCenterOfMass / (boids.length : F))
          currentAverageVelocity := Function.update w.swarm.currentAverageVelocity swarmRef
            (s.newAvgVelocity / (boids.length : F)) }
        node := env.updateTransforms s.nodeData nodes
        rng := s.rng }
  else none

/-- `SwarmManager::updateSwarms`. -/
def updateSwarms (env : SwarmEnv F Q) (p_Swarms : List Nat) (p_DeltaT : F)
    (w : SwarmWorld F Q) : Option (SwarmWorld F Q) :=
  p_Swarms.foldlM (updateSwarm env p_DeltaT) w

end SwarmManager

/-! ## Swarm resources -/

/-- Collaborators of `SwarmManager::createResources` that are not among the translated
sources: the reference returned by the n-th `NodeManager::createNode` and
`MeshManager::createMesh` call, and `NodeManager::getComponentForEntity`. -/
structure SpawnEnv where
  createNode : Nat → Nat
  createMesh : Nat → Nat
  getComponentForEntity : Nat → Nat

/-- State of `SwarmManager::createResources`: the swarm arrays, the number of boid entities
created so far and the local array `meshComponentsToCreate`. -/
structure SpawnState (F : Type) where
  swarm : SwarmData F
  spawned : Nat
  meshComponentsToCreate : List Nat

namespace SwarmManager

variable {F Q : Type} [LinearOrderedField F]

/-- One iteration of the inner loop of `createResources`: entity, node, mesh and light are
created by the collaborators, then one boid record and the node reference are pushed. -/
def spawnBoid (env : SpawnEnv) (node : NodeData F Q) (swarmRef : Nat) (s : SpawnState F)
    (_i : Nat) : SpawnState F :=
  let nodeRef := env.createNode s.spawned
  let meshRef := env.createMesh s.spawned
  let swarmNodeRef := env.getComponentForEntity (s.swarm.entity swarmRef)
  { swarm := { s.swarm with
      boids := Function.update s.swarm.boids swarmRef
        (s.swarm.boids swarmRef ++ [⟨node.worldPosition swarmNodeRef, 0⟩])
      nodes := Function.update s.swarm.nodes swarmRef (s.swarm.nodes swarmRef ++ [nodeRef]) }
    spawned := s.spawned + 1
    meshComponentsToCreate := s.meshComponentsToCreate ++ [meshRef] }

/-- `SwarmManager::createResources`: for every entry of `p_Swarms`, `BOID_COUNT` spawns.  The
closing calls `rebuildTreeAndUpdateTransforms` and `MeshManager::createResources` work on the
node and mesh managers only. -/
def createResources (env : SpawnEnv) (node : NodeData F Q) (p_Swarms : List Nat)
    (d : SwarmData F) : SpawnState F :=
  p_Swarms.foldl
    (fun s swarmRef => (List.range BOID_COUNT).foldl (spawnBoid env node swarmRef) s)
    ⟨d, 0, []⟩

/-- `SwarmManager::destroyResources`; `rootValid` is `World::getRootNode().isValid()` and the
second component collects the arguments of the `World::destroyNodeFull` calls. -/
def destroyResources (rootValid : Bool) (p_Swarms : List Nat) (d : SwarmData F) :
    SwarmData F × List Nat :=
  p_Swarms.foldl
    (fun s swarmRef =>
      ({ s.1 with
          boids := Function.update s.1.boids swarmRef []
          nodes := Function.update s.1.nodes swarmRef [] },
        s.2 ++ (if rootValid then s.1.nodes swarmRef else [])))
    (d, [])

end SwarmManager

/-! ## Slot allocation and the camera cascade -/

/-- Modelled from the spec: the Slot Allocator of §4.1, which stands for
`ComponentManagerBase::_createComponent` / `_destroyComponent` and for
`FrustumManager::createFrustum` / `destroyFrustum`; none of them is among the translated
sources.  A fixed capacity and the list of live ids. -/
structure SlotAllocator where
  capacity : Nat
  live : List Nat

namespace SlotAllocator

/-- Modelled from the spec: `allocate` "returns the lowest-numbered free slot, marks it
allocated, fails with CapacityExceeded when the fixed capacity is exhausted". -/
def allocate (a : SlotAllocator) : Option (Nat × SlotAllocator) :=
  match (List.range a.capacity).find? (fun i => decide (i ∉ a.live)) with
  | none => none
  | some id => some (id, { a with live := a.live ++ [id] })

/-- Modelled from the spec: `release` "returns the slot to the free pool"; it fails when the
reference is not currently allocated. -/
def release (a : SlotAllocator) (id : Nat) : Option SlotAllocator :=
  if id ∈ a.live then some { a with live := a.live.erase id } else none

end SlotAllocator

/-- Calls made to the component base class and to `FrustumManager`, in program order. -/
inductive Call where
  | createComponent (entity : Nat) (ref : Nat)
  | createFrustum (name : String) (ref : Nat)
  | destroyFrustum (ref : Ref)
  | destroyComponent (ref : Nat)
  deriving DecidableEq, Repr

/-- The camera manager together with the frustum manager it cascades into. -/
structure CameraWorld (F V : Type) where
  components : SlotAllocator
  data : CameraData F V
  frustums : SlotAllocator
  calls : List Call

namespace CameraManager

variable {F V : Type}

/-- `FrustumManager::destroyFrustum` on a stored reference: the invalid reference and a
reference that is not live are errors. -/
def destroyFrustum (a : SlotAllocator) : Ref → Option SlotAllocator
  | Ref.invalid => none
  | Ref.valid id => a.release id

/-- `CameraManager::createCamera`: `_createComponent`, then the frustum field of the new slot
receives the result of `FrustumManager::createFrustum(_N(CameraFrustum))`. -/
def createCamera (w : CameraWorld F V) (p_ParentEntity : Nat) :
    Option (Nat × CameraWorld F V) :=
  match w.components.allocate with
  | none => none
  | some (ref, components) =>
    match w.frustums.allocate with
    | none => none
    | some (fr, frustums) =>
      some (ref,
        { components := components
          data := { w.data with frustum := Function.update w.data.frustum ref (Ref.valid fr) }
          frustums := frustums
          calls := w.calls ++
            [Call.createComponent p_ParentEntity ref, Call.createFrustum "CameraFrustum" fr] })

/-- `CameraManager::destroyCamera`: `destroyFrustum(_frustum(p_Camera))`, then the field is
set to `Dod::Ref()`, then `_destroyComponent(p_Camera)`. -/
def destroyCamera (w : CameraWorld F V) (p_Camera : Nat) : Option (CameraWorld F V) :=
  match destroyFrustum w.frustums (w.data.frustum p_Camera) with
  | none => none
  | some frustums =>
    match w.components.release p_Camera with
    | none => none
    | some components =>
      some
        { components := components
          data := { w.data with
            frustum := Function.update w.data.frustum p_Camera Ref.invalid }
          frustums := frustums
          calls := w.calls ++
            [Call.destroyFrustum (w.data.frustum p_Camera), Call.destroyComponent p_Camera] }

/-- States reached from empty managers by `createCamera` and `destroyCamera` calls. -/
inductive Reachable : CameraWorld F V → Prop
  | init (capacity frustumCapacity : Nat) (data : CameraData F V) :
      Reachable ⟨⟨capacity, []⟩, data, ⟨frustumCapacity, []⟩, []⟩
  | create {w w' : CameraWorld F V} {entity ref : Nat} :
      Reachable w → createCamera w entity = some (ref, w') → Reachable w'
  | destroy {w w' : CameraWorld F V} {camera : Nat} :
      Reachable w → destroyCamera w camera = some w' → Reachable w'

/-- Every live camera owns one live frustum, no frustum is owned twice, and there is no
live frustum beyond the owned ones. -/
def CascadeInvariant (w : CameraWorld F V) : Prop :=
  w.components.live.Nodup ∧ w.frustums.live.Nodup ∧
  (∀ c ∈ w.components.live, ∃ f, w.data.frustum c = Ref.valid f ∧ f ∈ w.frustums.live) ∧
  (∀ c ∈ w.components.live, ∀ c' ∈ w.components.live,
    w.data.frustum c = w.data.frustum c' → c = c') ∧
  w.frustums.live.length = w.components.live.length

end CameraManager

/-! ## Example data -/

/-- A camera table: every slot holds a field of view of 9/64 rad, planes 1/2 and 500. -/
def exampleCameras : CameraData ℚ (Vec3 ℚ) :=
  ⟨fun _ => 9 / 64, fun _ => 1 / 2, fun _ => 500, fun _ => Ref.invalid, fun _ => 0, fun _ => 0⟩

/-- A post effect table: slot `i` holds scattering `i` and local light intensity `2 i + 1`;
the base class data is the resource name. -/
def examplePostEffects : PostEffectData ℚ String :=
  ⟨"Default", fun i => (i : ℚ), fun i => 2 * (i : ℚ) + 1⟩

/-- A resource base class whose reflection writes and reads the property "name". -/
def exampleResourceBase : ResourceManagerBase String (Property ℚ) where
  _compileDescriptor := fun _ _ g p =>
    Properties.AddMember p "name" ⟨g, "Resource", "string", 0, false, false⟩
  _initFromDescriptor := fun name _ p =>
    match Properties.FindMember p "name" with
    | some v => v.typeTag
    | none => name

/-- A descriptor that names one camera property, one post effect property and a property
no kind knows. -/
def exampleDescriptor : Properties (Property ℚ) :=
  [("nearPlane", ⟨false, "Camera", "float", 3, false, false⟩),
   ("Scattering", ⟨false, "VolumetricLighting", "float", 7, false, false⟩),
   ("comment", ⟨false, "Editor", "string", 0, false, false⟩)]

/-- A swarm table: swarm 0 has one boid at the origin, at rest, and one node; its
stored center of mass and average velocity are zero.  The other swarms are empty. -/
def exampleSwarms (F : Type) [LinearOrderedField F] : SwarmData F where
  entity := fun r => r
  boids := fun r => if r = 0 then [⟨0, 0⟩] else []
  nodes := fun r => if r = 0 then [7] else []
  currentCenterOfMass := fun _ => 0
  currentAverageVelocity := fun _ => 0
  descBoidMeshName := fun _ => "Boid"

/-- Node arrays in which the node of every swarm has the world position `(0, 0, 8)`. -/
def exampleNodes (F : Type) [LinearOrderedField F] : NodeData F Unit where
  position := fun _ => 0
  orientation := fun _ => ()
  worldPosition := fun _ => ⟨0, 0, 8⟩

/-- Collaborators for the example swarm: `Rat.sqrt` (exact on squares of rationals),
`_INTR_EPSILON = 1/1000000`, a random source that returns the call number, a ray cast that
never hits. -/
def exampleSwarmEnv : SwarmEnv ℚ Unit where
  sqrt := Rat.sqrt
  epsilon := 1 / 1000000
  rotation := fun _ _ => ()
  calcRandomNumber := fun n => n
  raycast := fun _ _ _ => none
  getComponentForEntity := fun e => e
  updateTransforms := fun nd _ => nd

/-- Collaborators for `createResources`: the n-th created node is `100 + n`, the n-th mesh
`n`. -/
def exampleSpawnEnv : SpawnEnv where
  createNode := fun n => 100 + n
  createMesh := fun n => n
  getComponentForEntity := fun e => e

/-- Empty camera and frustum managers of capacity 2 over the example camera table. -/
def exampleCameraWorld : CameraWorld ℚ (Vec3 ℚ) :=
  ⟨⟨2, []⟩, exampleCameras, ⟨2, []⟩, []⟩

/-- The example managers after `createCamera` for entity 5: camera 0 owns frustum 0. -/
def exampleCameraWorldCreated : CameraWorld ℚ (Vec3 ℚ) :=
  ⟨⟨2, [0]⟩,
    { exampleCameras with frustum := Function.update exampleCameras.frustum 0 (Ref.valid 0) },
    ⟨2, [0]⟩, [Call.createComponent 5 0, Call.createFrustum "CameraFrustum" 0]⟩

/-- A swarm table with two boids in swarm 0, at rest at the origin and at `(1, 0, 0)`, and
two nodes; center of mass and average velocity are zero.  The other swarms are empty. -/
def examplePairSwarms : SwarmData ℚ where
  entity := fun r => r
  boids := fun r => if r = 0 then [⟨0, 0⟩, ⟨⟨1, 0, 0⟩, 0⟩] else []
  nodes := fun r => if r = 0 then [7, 8] else []
  currentCenterOfMass := fun _ => 0
  currentAverageVelocity := fun _ => 0
  descBoidMeshName := fun _ => "Boid"

/-- Node arrays in which every node sits at the origin. -/
def exampleOriginNodes : NodeData ℚ Unit where
  position := fun _ => 0
  orientation := fun _ => ()
  worldPosition := fun _ => 0

/-- The example collaborators with a ray cast that hits at distance `1/2`. -/
def exampleGroundEnv : SwarmEnv ℚ Unit :=
  { exampleSwarmEnv with raycast := fun _ _ _ => some (1 / 2) }

/-! ## Binary32 versions of the speed clamp and of the blend -/

namespace Float32

/-- The binary32 sum: the exact sum rounded once. -/
def add (a b : ℚ) : ℚ := round (a + b)

/-- The binary32 difference: the exact difference rounded once. -/
def sub (a b : ℚ) : ℚ := round (a - b)

/-- The binary32 quotient: the exact quotient rounded once. -/
def div (a b : ℚ) : ℚ := round (a / b)

/-- Number of multiplications of `n / d` by 4 needed to reach `2 ^ 46`. -/
def scaleUp4 : Nat → Nat → Nat → Nat
  | 0, _, _ => 0
  | fuel + 1, n, d => if 2 ^ 46 * d ≤ n then 0 else scaleUp4 fuel (4 * n) d + 1

/-- Number of divisions of `n / d` by 4 needed to get below `2 ^ 48`. -/
def scaleDown4 : Nat → Nat → Nat → Nat
  | 0, _, _ => 0
  | fuel + 1, n, d => if n < 2 ^ 48 * d then 0 else scaleDown4 fuel n (4 * d) + 1

/-- Binary search for the integer square root: `acc` holds the bits found so far, the
first argument is the number of lower bits still to decide. -/
def isqrtAux : Nat → Nat → Nat → Nat
  | 0, acc, _ => acc
  | b + 1, acc, y =>
    if (acc + 2 ^ b) * (acc + 2 ^ b) ≤ y then isqrtAux b (acc + 2 ^ b) y else isqrtAux b acc y

/-- The floor of the square root of a natural number below `2 ^ 48`. -/
def isqrt (y : Nat) : Nat := isqrtAux 24 0 y

/-- The integer nearest to the square root of the ratio `n / d`, ties to even: the floor
`s` of the root, or `s + 1` when `n / d` lies above `(s + 1/2) ^ 2`. -/
def roundSqrt (n d : Nat) : Nat :=
  if 4 * n < (4 * isqrt (n / d) ^ 2 + 4 * isqrt (n / d) + 1) * d then isqrt (n / d)
  else if (4 * isqrt (n / d) ^ 2 + 4 * isqrt (n / d) + 1) * d < 4 * n then
    isqrt (n / d) + 1
  else if isqrt (n / d) % 2 = 0 then isqrt (n / d) else isqrt (n / d) + 1

/-- The binary32 square root of a positive ratio `n / d`: the ratio is scaled by a power of
4 into `[2 ^ 46, 2 ^ 48)`, so that its root has a 24 bit integer part, and the root is
rounded to the nearest integer. -/
def sqrtMag (n d : Nat) : ℚ :=
  (roundSqrt (n * 4 ^ scaleUp4 256 n d) (d * 4 ^ scaleDown4 256 n d) : ℚ)
    * 2 ^ scaleDown4 256 n d / 2 ^ scaleUp4 256 n d

/-- The binary32 square root (correctly rounded) of a non-negative value; the result for a
negative argument, a NaN in the program, is not modelled and set to 0. -/
def sqrt (x : ℚ) : ℚ :=
  if 0 < x then sqrtMag x.num.natAbs x.den else 0

/-- `glm::mix(x, y, a) = x * (1 - a) + y * a` with every operation rounded to binary32. -/
def mix (x y a : ℚ) : ℚ := add (mul x (sub 1 a)) (mul y a)

/-- `glm::dot` on `vec3` in binary32: the three products, summed from the left. -/
def dot (a b : Vec3 ℚ) : ℚ := add (add (mul a.x b.x) (mul a.y b.y)) (mul a.z b.z)

/-- `glm::length` in binary32. -/
def length (v : Vec3 ℚ) : ℚ := sqrt (dot v v)

/-- `vec3 / float` in binary32, component by component. -/
def vdiv (v : Vec3 ℚ) (s : ℚ) : Vec3 ℚ := ⟨div v.x s, div v.y s, div v.z s⟩

/-- `vec3 * float` in binary32, component by component. -/
def vmul (v : Vec3 ℚ) (s : ℚ) : Vec3 ℚ := ⟨mul v.x s, mul v.y s, mul v.z s⟩

end Float32

namespace SwarmManager

variable {F : Type} [LinearOrderedField F]

/-- The speed clamp of `updateSwarms` with the arithmetic of `glm::vec3` left open: `length`
is `glm::length`, `vdiv` is `vec3 / float` and `vmul` is `vec3 * float`.  With the exact
operations it is `clampSpeed`, with the ones of `Float32` it is the clamp as the program
computes it. -/
def clampSpeedWith (length : Vec3 F → F) (vdiv vmul : Vec3 F → F → Vec3 F) (boid : Boid F) :
    Boid F :=
  let velLen := length boid.vel
  if velLen > (maxVel : F) then { boid with vel := vmul (vdiv boid.vel velLen) (maxVel : F) }
  else boid

end SwarmManager

namespace PostEffectManager

variable {F β : Type}

/-- `PostEffectManager::blendPostEffect` with `glm::mix` left open.  With `glm.mix` it is
`blendPostEffect`, with `Float32.mix` it is the blend as the program computes it. -/
def blendPostEffectWith (mix : F → F → F → F) (d : PostEffectData F β)
    (p_Target p_Left p_Right : Nat) (p_BlendFactor : F) : PostEffectData F β :=
  let d1 := { d with
    descVolumetricLightingScattering :=
      Function.update d.descVolumetricLightingScattering p_Target
        (mix (d.descVolumetricLightingScattering p_Left)
          (d.descVolumetricLightingScattering p_Right) p_BlendFactor) }
  { d1 with
    descVolumetricLightingLocalLightIntensity :=
      Function.update d1.descVolumetricLightingLocalLightIntensity p_Target
        (mix (d1.descVolumetricLightingLocalLightIntensity p_Left)
          (d1.descVolumetricLightingLocalLightIntensity p_Right) p_BlendFactor) }

end PostEffectManager

/-- A swarm table: swarm 0 has one boid at the origin with velocity `(50, 120, 0)` and one
node; its stored center of mass is the origin and its stored average velocity is
`(50, 120, 0)`.  The other swarms are empty. -/
def exampleFastSwarms (F : Type) [LinearOrderedField F] : SwarmData F where
  entity := fun r => r
  boids := fun r => if r = 0 then [⟨0, ⟨50, 120, 0⟩⟩] else []
  nodes := fun r => if r = 0 then [7] else []
  currentCenterOfMass := fun _ => 0
  currentAverageVelocity := fun _ => ⟨50, 120, 0⟩
  descBoidMeshName := fun _ => "Boid"

/-- Node arrays in which every node sits at the origin, over any field. -/
def exampleRestNodes (F : Type) [LinearOrderedField F] : NodeData F Unit where
  position := fun _ => 0
  orientation := fun _ => ()
  worldPosition := fun _ => 0

/-- A post effect table in which every slot holds the binary32 value `0.1f`, which is
`13421773 / 2 ^ 27` (bit pattern `0x3DCCCCCD`), in both fields. -/
def exampleTenthPostEffects : PostEffectData ℚ String :=
  ⟨"Default", fun _ => 13421773 / 134217728, fun _ => 13421773 / 134217728⟩

/-! # Theorems -/

/-! ## Property mappings -/

namespace Properties

variable {J : Type}

theorem FindMember_nil (name : String) : FindMember ([] : Properties J) name = none := rfl

theorem FindMember_AddMember_of_some (p : Properties J) (n name : String) (v x : J)
    (hx : FindMember p name = some x) : FindMember (AddMember p n v) name = some x := by
  induction p with
  | nil => simp [FindMember] at hx
  | cons m p ih =>
    obtain ⟨k, w⟩ := m
    simp only [FindMember, AddMember, List.cons_append, List.lookup_cons] at hx ih ⊢
    cases hk : (name == k) with
    | true => simpa [hk] using hx
    | false =>
      simp only [hk] at hx ⊢
      exact ih hx

theorem FindMember_AddMember_of_none (p : Properties J) (n name : String) (v : J)
    (hx : FindMember p name = none) :
    FindMember (AddMember p n v) name = if name = n then some v else none := by
  induction p with
  | nil =>
    by_cases hn : name = n
    · simp [FindMember, AddMember, List.lookup_cons, hn]
    · have : (name == n) = false := by simpa using hn
      simp [FindMember, AddMember, List.lookup_cons, hn, this]
  | cons m p ih =>
    obtain ⟨k, w⟩ := m
    simp only [FindMember, AddMember, List.cons_append, List.lookup_cons] at hx ih ⊢
    cases hk : (name == k) with
    | true => simp [hk] at hx
    | false =>
      simp only [hk] at hx ⊢
      exact ih hx

theorem FindMember_insert_of_ne (p1 p2 : Properties J) (name k : String) (v : J)
    (hne : name ≠ k) : FindMember (p1 ++ (name, v) :: p2) k = FindMember (p1 ++ p2) k := by
  induction p1 with
  | nil =>
    have : (k == name) = false := by simpa using fun hk => hne hk.symm
    simp [FindMember, List.lookup_cons, this]
  | cons m p1 ih =>
    obtain ⟨k', w⟩ := m
    simp only [FindMember, List.cons_append, List.lookup_cons] at ih ⊢
    rw [ih]

theorem HasMember_AddMember_self (p : Properties J) (n : String) (v : J) :
    HasMember (AddMember p n v) n = true := by
  unfold HasMember
  cases hx : FindMember p n with
  | some x => rw [FindMember_AddMember_of_some p n n v x hx]; rfl
  | none => rw [FindMember_AddMember_of_none p n n v hx]; simp

theorem HasMember_AddMember_of_HasMember (p : Properties J) (n name : String) (v : J)
    (hp : HasMember p name = true) : HasMember (AddMember p n v) name = true := by
  unfold HasMember at hp ⊢
  cases hx : FindMember p name with
  | some x => rw [FindMember_AddMember_of_some p n name v x hx]; rfl
  | none => rw [hx] at hp; simp at hp

end Properties

/-! ## Reflection: round trip, elision, frame -/

section Reflection

open Properties

variable {F V β J : Type}

theorem specJsonHelper_lossless (F : Type) : (specJsonHelper F).Lossless :=
  fun _ _ _ _ _ _ => rfl

theorem camera_FindMember_fov (h : JsonHelper F J) (degrees : F → F) (c : CameraData F V)
    (ref : Nat) (g : Bool) :
    FindMember (CameraManager.compileDescriptor h degrees c ref g []) "fov"
      = some (h.createProp g "Camera" "float" (degrees (c.descFov ref)) false false) := by
  unfold CameraManager.compileDescriptor
  apply FindMember_AddMember_of_some
  apply FindMember_AddMember_of_some
  rw [FindMember_AddMember_of_none _ _ _ _ (FindMember_nil _)]
  simp

theorem camera_FindMember_nearPlane (h : JsonHelper F J) (degrees : F → F)
    (c : CameraData F V) (ref : Nat) (g : Bool) :
    FindMember (CameraManager.compileDescriptor h degrees c ref g []) "nearPlane"
      = some (h.createProp g "Camera" "float" (c.descNearPlane ref) false false) := by
  unfold CameraManager.compileDescriptor
  apply FindMember_AddMember_of_some
  rw [FindMember_AddMember_of_none]
  · simp
  · rw [FindMember_AddMember_of_none _ _ _ _ (FindMember_nil _)]
    simp

theorem camera_FindMember_farPlane (h : JsonHelper F J) (degrees : F → F)
    (c : CameraData F V) (ref : Nat) (g : Bool) :
    FindMember (CameraManager.compileDescriptor h degrees c ref g []) "farPlane"
      = some (h.createProp g "Camera" "float" (c.descFarPlane ref) false false) := by
  unfold CameraManager.compileDescriptor
  rw [FindMember_AddMember_of_none]
  · simp
  · rw [FindMember_AddMember_of_none]
    · simp
    · rw [FindMember_AddMember_of_none _ _ _ _ (FindMember_nil _)]
      simp

theorem camera_FindMember_other (h : JsonHelper F J) (degrees : F → F)
    (c : CameraData F V) (ref : Nat) (g : Bool) (name : String) (h1 : name ≠ "fov")
    (h2 : name ≠ "nearPlane") (h3 : name ≠ "farPlane") :
    FindMember (CameraManager.compileDescriptor h degrees c ref g []) name = none := by
  unfold CameraManager.compileDescriptor
  rw [FindMember_AddMember_of_none]
  · simp [h3]
  · rw [FindMember_AddMember_of_none]
    · simp [h2]
    · rw [FindMember_AddMember_of_none _ _ _ _ (FindMember_nil _)]
      simp [h1]

theorem postEffect_FindMember_scattering (h : JsonHelper F J) (b : ResourceManagerBase β J)
    (d : PostEffectData F β) (ref : Nat) (g : Bool) (p : Properties J)
    (hb : FindMember (b._compileDescriptor d.base ref g p) "Scattering" = none) :
    FindMember (PostEffectManager.compileDescriptor h b d ref g p) "Scattering"
      = some (h.createProp g "VolumetricLighting" "float"
          (d.descVolumetricLightingScattering ref) false false) := by
  unfold PostEffectManager.compileDescriptor
  apply FindMember_AddMember_of_some
  rw [FindMember_AddMember_of_none _ _ _ _ hb]
  simp

theorem postEffect_FindMember_intensity (h : JsonHelper F J) (b : ResourceManagerBase β J)
    (d : PostEffectData F β) (ref : Nat) (g : Bool) (p : Properties J)
    (hb : FindMember (b._compileDescriptor d.base ref g p) "LocalLightIntensity" = none) :
    FindMember (PostEffectManager.compileDescriptor h b d ref g p) "LocalLightIntensity"
      = some (h.createProp g "VolumetricLighting" "float"
          (d.descVolumetricLightingLocalLightIntensity ref) false false) := by
  unfold PostEffectManager.compileDescriptor
  rw [FindMember_AddMember_of_none]
  · simp
  · rw [FindMember_AddMember_of_none _ _ _ _ hb]
    simp

/-- C2 (as amended).  Compiling a slot and loading the descriptor into the same slot,
whatever the slot holds by then, restores `descNearPlane`, `descFarPlane`, `Scattering` and
`LocalLightIntensity` exactly, and sets `descFov` to `radians (degrees descFov)`: the
original value whenever `radians` inverts `degrees`.  The helper layer is assumed to read
back what it wrote, and the resource base class not to emit the two PostEffect names. -/
theorem descriptor_round_trip (h : JsonHelper F J) (hl : h.Lossless) (radians degrees : F → F)
    (b : ResourceManagerBase β J) (c e : CameraData F V) (d d' : PostEffectData F β)
    (ref : Nat) (g g' : Bool)
    (hb1 : FindMember (b._compileDescriptor d.base ref g []) "Scattering" = none)
    (hb2 : FindMember (b._compileDescriptor d.base ref g []) "LocalLightIntensity" = none) :
    (CameraManager.initFromDescriptor h radians e ref g'
        (CameraManager.compileDescriptor h degrees c ref g [])).descFov ref
      = radians (degrees (c.descFov ref)) ∧
    ((∀ x, radians (degrees x) = x) →
      (CameraManager.initFromDescriptor h radians e ref g'
        (CameraManager.compileDescriptor h degrees c ref g [])).descFov ref = c.descFov ref) ∧
    (CameraManager.initFromDescriptor h radians e ref g'
        (CameraManager.compileDescriptor h degrees c ref g [])).descNearPlane ref
      = c.descNearPlane ref ∧
    (CameraManager.initFromDescriptor h radians e ref g'
        (CameraManager.compileDescriptor h degrees c ref g [])).descFarPlane ref
      = c.descFarPlane ref ∧
    (PostEffectManager.initFromDescriptor h b d' ref
        (PostEffectManager.compileDescriptor h b d ref g [])).descVolumetricLightingScattering
        ref
      = d.descVolumetricLightingScattering ref ∧
    (PostEffectManager.initFromDescriptor h b d' ref
        (PostEffectManager.compileDescriptor h b d ref g
          [])).descVolumetricLightingLocalLightIntensity ref
      = d.descVolumetricLightingLocalLightIntensity ref := by
  have hfov : (CameraManager.initFromDescriptor h radians e ref g'
        (CameraManager.compileDescriptor h degrees c ref g [])).descFov ref
      = radians (degrees (c.descFov ref)) := by
    simp [CameraManager.initFromDescriptor, camera_FindMember_fov, camera_FindMember_nearPlane,
      camera_FindMember_farPlane, hl _ _ _ _ _ _]
  refine ⟨hfov, fun hinv => by rw [hfov, hinv], ?_, ?_, ?_, ?_⟩
  · simp [CameraManager.initFromDescriptor, camera_FindMember_fov, camera_FindMember_nearPlane,
      camera_FindMember_farPlane, hl _ _ _ _ _ _]
  · simp [CameraManager.initFromDescriptor, camera_FindMember_fov, camera_FindMember_nearPlane,
      camera_FindMember_farPlane, hl _ _ _ _ _ _]
  · simp [PostEffectManager.initFromDescriptor, postEffect_FindMember_scattering h b d ref g [] hb1,
      postEffect_FindMember_intensity h b d ref g [] hb2, hl _ _ _ _ _ _]
  · simp [PostEffectManager.initFromDescriptor, postEffect_FindMember_scattering h b d ref g [] hb1,
      postEffect_FindMember_intensity h b d ref g [] hb2, hl _ _ _ _ _ _]

end Reflection

section ReflectionClaims

open Properties

variable {F V β J : Type}

/-- Witness of `descriptor_round_trip` on the example tables, with the binary32 conversions
and a base class that emits the property "name". -/
theorem descriptor_round_trip_witness :
    (specJsonHelper ℚ).Lossless ∧
    FindMember (exampleResourceBase._compileDescriptor examplePostEffects.base 3 true [])
      "Scattering" = none ∧
    (CameraManager.initFromDescriptor (specJsonHelper ℚ) Float32.radians exampleCameras 0 false
        (CameraManager.compileDescriptor (specJsonHelper ℚ) Float32.degrees exampleCameras 0
          true [])).descNearPlane 0 = 1 / 2 ∧
    (PostEffectManager.initFromDescriptor (specJsonHelper ℚ) exampleResourceBase
        (PostEffectManager.resetToDefault examplePostEffects 3) 3
        (PostEffectManager.compileDescriptor (specJsonHelper ℚ) exampleResourceBase
          examplePostEffects 3 true [])).descVolumetricLightingScattering 3 = 3 :=
  ⟨specJsonHelper_lossless ℚ, by decide,
    (descriptor_round_trip (specJsonHelper ℚ) (specJsonHelper_lossless ℚ) Float32.radians
      Float32.degrees exampleResourceBase exampleCameras exampleCameras examplePostEffects
      (PostEffectManager.resetToDefault examplePostEffects 3) 0 true false
      (by decide) (by decide)).2.2.1,
    (descriptor_round_trip (specJsonHelper ℚ) (specJsonHelper_lossless ℚ) Float32.radians
      Float32.degrees exampleResourceBase exampleCameras exampleCameras examplePostEffects
      (PostEffectManager.resetToDefault examplePostEffects 3) 3 true false
      (by decide) (by decide)).2.2.2.2.1⟩

/-- C2, counterexample.  A camera slot with `descFov = 9/64` (binary32 `0x3E100000`):
`glm::degrees` gives `8448607 / 2^20` and `glm::radians` of that gives `9437185 / 2^26`,
one unit in the last place above `9/64`; the round trip does not reproduce `descFov`. -/
theorem descriptor_round_trip_fov_inexact :
    exampleCameras.descFov 0 = 9 / 64 ∧
    Float32.degrees (9 / 64) = 8448607 / 1048576 ∧
    (CameraManager.initFromDescriptor (specJsonHelper ℚ) Float32.radians exampleCameras 0 false
        (CameraManager.compileDescriptor (specJsonHelper ℚ) Float32.degrees exampleCameras 0
          false [])).descFov 0 = 9437185 / 67108864 ∧
    (CameraManager.initFromDescriptor (specJsonHelper ℚ) Float32.radians exampleCameras 0 false
        (CameraManager.compileDescriptor (specJsonHelper ℚ) Float32.degrees exampleCameras 0
          false [])).descFov 0 ≠ exampleCameras.descFov 0 := by
  refine ⟨rfl, by decide!, by decide!, by decide!⟩

/-- C3, counterexample.  A camera slot that has just been reset holds the default near plane
1, and `compileDescriptor` with the flag `false` still emits "nearPlane". -/
theorem compileDescriptor_default_not_elided :
    ¬ (HasMember
        (CameraManager.compileDescriptor (specJsonHelper ℚ) Float32.degrees
          (CameraManager.resetToDefault Float32.radians exampleCameras 0) 0 false [])
        "nearPlane" = false ↔
      (CameraManager.resetToDefault Float32.radians exampleCameras 0).descNearPlane 0 = 1) := by
  decide!

/-- C3 (as amended).  `compileDescriptor` emits every exposed property of the slot, whatever
the flag and whatever the field values: the names of a compiled Camera descriptor are exactly
"fov", "nearPlane" and "farPlane", and a compiled PostEffect descriptor has "Scattering" and
"LocalLightIntensity".  The flag only reaches the property constructor. -/
theorem compileDescriptor_emits_every_property (h : JsonHelper F J) (degrees : F → F)
    (b : ResourceManagerBase β J) (c : CameraData F V) (d : PostEffectData F β) (ref : Nat)
    (g : Bool) (p : Properties J) :
    (∀ name, HasMember (CameraManager.compileDescriptor h degrees c ref g []) name = true ↔
      (name = "fov" ∨ name = "nearPlane" ∨ name = "farPlane")) ∧
    HasMember (CameraManager.compileDescriptor h degrees c ref g p) "fov" = true ∧
    HasMember (CameraManager.compileDescriptor h degrees c ref g p) "nearPlane" = true ∧
    HasMember (CameraManager.compileDescriptor h degrees c ref g p) "farPlane" = true ∧
    HasMember (PostEffectManager.compileDescriptor h b d ref g p) "Scattering" = true ∧
    HasMember (PostEffectManager.compileDescriptor h b d ref g p) "LocalLightIntensity"
      = true := by
  refine ⟨fun name => ⟨fun hn => ?_, fun hn => ?_⟩, ?_, ?_, ?_, ?_, ?_⟩
  · by_contra hcon
    push_neg at hcon
    rw [HasMember, camera_FindMember_other h degrees c ref g name hcon.1 hcon.2.1 hcon.2.2]
      at hn
    simp at hn
  · rcases hn with rfl | rfl | rfl
    · rw [HasMember, camera_FindMember_fov]; rfl
    · rw [HasMember, camera_FindMember_nearPlane]; rfl
    · rw [HasMember, camera_FindMember_farPlane]; rfl
  · exact HasMember_AddMember_of_HasMember _ _ _ _
      (HasMember_AddMember_of_HasMember _ _ _ _ (HasMember_AddMember_self _ _ _))
  · exact HasMember_AddMember_of_HasMember _ _ _ _ (HasMember_AddMember_self _ _ _)
  · exact HasMember_AddMember_self _ _ _
  · exact HasMember_AddMember_of_HasMember _ _ _ _ (HasMember_AddMember_self _ _ _)
  · exact HasMember_AddMember_self _ _ _

end ReflectionClaims

section TableClaims

open Properties

variable {F V β J : Type}

/-- C4.  Blend endpoints: for all slots `target`, `left`, `right` (equal or not) the factor 0
leaves in `target` exactly the two fields `left` held before the call, and the factor 1
exactly the two fields `right` held before the call. -/
theorem blendPostEffect_endpoints [LinearOrderedField F] (d : PostEffectData F β)
    (target left right : Nat) :
    (PostEffectManager.blendPostEffect d target left right 0).descVolumetricLightingScattering
        target = d.descVolumetricLightingScattering left ∧
    (PostEffectManager.blendPostEffect d target left right
        0).descVolumetricLightingLocalLightIntensity target
      = d.descVolumetricLightingLocalLightIntensity left ∧
    (PostEffectManager.blendPostEffect d target left right 1).descVolumetricLightingScattering
        target = d.descVolumetricLightingScattering right ∧
    (PostEffectManager.blendPostEffect d target left right
        1).descVolumetricLightingLocalLightIntensity target
      = d.descVolumetricLightingLocalLightIntensity right := by
  simp [PostEffectManager.blendPostEffect, glm.mix]

/-- C6.  Reset idempotence: a second `resetToDefault` on the same slot leaves the table as
the first one left it, for Camera and for PostEffect, and the values the slot receives
(`radians 75`, 1, 10000; 0, 0) are constants that do not mention the prior table. -/
theorem resetToDefault_idempotent [LinearOrderedField F] (radians : F → F)
    (c : CameraData F V) (d : PostEffectData F β) (ref : Nat) :
    CameraManager.resetToDefault radians (CameraManager.resetToDefault radians c ref) ref
      = CameraManager.resetToDefault radians c ref ∧
    (CameraManager.resetToDefault radians c ref).descFov ref = radians 75 ∧
    (CameraManager.resetToDefault radians c ref).descNearPlane ref = 1 ∧
    (CameraManager.resetToDefault radians c ref).descFarPlane ref = 10000 ∧
    PostEffectManager.resetToDefault (PostEffectManager.resetToDefault d ref) ref
      = PostEffectManager.resetToDefault d ref ∧
    (PostEffectManager.resetToDefault d ref).descVolumetricLightingScattering ref = 0 ∧
    (PostEffectManager.resetToDefault d ref).descVolumetricLightingLocalLightIntensity ref
      = 0 := by
  simp [CameraManager.resetToDefault, PostEffectManager.resetToDefault]

/-- C7.  `initFromDescriptor` leaves every exposed field whose name is absent from the
mapping as it was, and inserting a property with a name that is not exposed, anywhere in the
mapping, does not change the resulting exposed fields (Camera: the whole table). -/
theorem initFromDescriptor_frame (h : JsonHelper F J) (radians : F → F)
    (b : ResourceManagerBase β J) (c : CameraData F V) (d : PostEffectData F β) (ref : Nat)
    (g : Bool) :
    (∀ p : Properties J,
      (FindMember p "fov" = none →
        (CameraManager.initFromDescriptor h radians c ref g p).descFov = c.descFov) ∧
      (FindMember p "nearPlane" = none →
        (CameraManager.initFromDescriptor h radians c ref g p).descNearPlane
          = c.descNearPlane) ∧
      (FindMember p "farPlane" = none →
        (CameraManager.initFromDescriptor h radians c ref g p).descFarPlane
          = c.descFarPlane) ∧
      (FindMember p "Scattering" = none →
        (PostEffectManager.initFromDescriptor h b d ref p).descVolumetricLightingScattering
          = d.descVolumetricLightingScattering) ∧
      (FindMember p "LocalLightIntensity" = none →
        (PostEffectManager.initFromDescriptor h b d ref
            p).descVolumetricLightingLocalLightIntensity
          = d.descVolumetricLightingLocalLightIntensity)) ∧
    (∀ (p1 p2 : Properties J) (name : String) (v : J),
      (name ≠ "fov" → name ≠ "nearPlane" → name ≠ "farPlane" →
        CameraManager.initFromDescriptor h radians c ref g (p1 ++ (name, v) :: p2)
          = CameraManager.initFromDescriptor h radians c ref g (p1 ++ p2)) ∧
      (name ≠ "Scattering" → name ≠ "LocalLightIntensity" →
        (PostEffectManager.initFromDescriptor h b d ref
            (p1 ++ (name, v) :: p2)).descVolumetricLightingScattering
          = (PostEffectManager.initFromDescriptor h b d ref
            (p1 ++ p2)).descVolumetricLightingScattering ∧
        (PostEffectManager.initFromDescriptor h b d ref
            (p1 ++ (name, v) :: p2)).descVolumetricLightingLocalLightIntensity
          = (PostEffectManager.initFromDescriptor h b d ref
            (p1 ++ p2)).descVolumetricLightingLocalLightIntensity)) := by
  refine ⟨fun p => ⟨fun hp => ?_, fun hp => ?_, fun hp => ?_, fun hp => ?_, fun hp => ?_⟩,
    fun p1 p2 name v => ⟨fun h1 h2 h3 => ?_, fun h1 h2 => ?_⟩⟩
  · unfold CameraManager.initFromDescriptor
    rw [hp]
    cases FindMember p "nearPlane" <;> cases FindMember p "farPlane" <;> rfl
  · unfold CameraManager.initFromDescriptor
    rw [hp]
    cases FindMember p "fov" <;> cases FindMember p "farPlane" <;> rfl
  · unfold CameraManager.initFromDescriptor
    rw [hp]
    cases FindMember p "fov" <;> cases FindMember p "nearPlane" <;> rfl
  · unfold PostEffectManager.initFromDescriptor
    rw [hp]
    cases FindMember p "LocalLightIntensity" <;> rfl
  · unfold PostEffectManager.initFromDescriptor
    rw [hp]
    cases FindMember p "Scattering" <;> rfl
  · unfold CameraManager.initFromDescriptor
    rw [FindMember_insert_of_ne p1 p2 name "fov" v h1,
      FindMember_insert_of_ne p1 p2 name "nearPlane" v h2,
      FindMember_insert_of_ne p1 p2 name "farPlane" v h3]
  · unfold PostEffectManager.initFromDescriptor
    rw [FindMember_insert_of_ne p1 p2 name "Scattering" v h1,
      FindMember_insert_of_ne p1 p2 name "LocalLightIntensity" v h2]
    cases FindMember (p1 ++ p2) "Scattering" <;>
      cases FindMember (p1 ++ p2) "LocalLightIntensity" <;> exact ⟨rfl, rfl⟩

/-- Witness of `initFromDescriptor_frame`: the example descriptor names "nearPlane" and
"Scattering" only, so the field of view and the local light intensity stay, and dropping its
unknown property "comment" changes nothing. -/
theorem initFromDescriptor_frame_witness :
    FindMember exampleDescriptor "fov" = none ∧
    (CameraManager.initFromDescriptor (specJsonHelper ℚ) Float32.radians exampleCameras 0 false
        exampleDescriptor).descFov = exampleCameras.descFov ∧
    (PostEffectManager.initFromDescriptor (specJsonHelper ℚ) exampleResourceBase
        examplePostEffects 0 exampleDescriptor).descVolumetricLightingLocalLightIntensity
      = examplePostEffects.descVolumetricLightingLocalLightIntensity ∧
    CameraManager.initFromDescriptor (specJsonHelper ℚ) Float32.radians exampleCameras 0 false
        (exampleDescriptor.take 2 ++
          ("comment", ⟨false, "Editor", "string", 0, false, false⟩) :: [])
      = CameraManager.initFromDescriptor (specJsonHelper ℚ) Float32.radians exampleCameras 0
        false (exampleDescriptor.take 2 ++ []) :=
  ⟨by decide,
    ((initFromDescriptor_frame (specJsonHelper ℚ) Float32.radians exampleResourceBase
      exampleCameras examplePostEffects 0 false).1 exampleDescriptor).1 (by decide),
    ((initFromDescriptor_frame (specJsonHelper ℚ) Float32.radians exampleResourceBase
      exampleCameras examplePostEffects 0 false).1 exampleDescriptor).2.2.2.2 (by decide),
    ((initFromDescriptor_frame (specJsonHelper ℚ) Float32.radians exampleResourceBase
      exampleCameras examplePostEffects 0 false).2 (exampleDescriptor.take 2) [] "comment"
      ⟨false, "Editor", "string", 0, false, false⟩).1 (by decide) (by decide) (by decide)⟩

/-- C10, counterexample.  Blending slot 1 (scattering 1) and slot 2 (scattering 2) into slot 0
with factor 2 gives scattering 3: not what the clamped factor 1 gives (2), not the right
operand, and outside the interval between the operands.  In binary32, blending two slots that
both hold `0.1f` with the factor `0.1f`, which lies in `[0, 1]`, gives `3355443 / 2 ^ 25`
(bit pattern `0x3DCCCCCC`), one unit in the last place below both operands. -/
theorem blendPostEffect_not_clamped :
    (PostEffectManager.blendPostEffect examplePostEffects 0 1 2
        2).descVolumetricLightingScattering 0 = 3 ∧
    (PostEffectManager.blendPostEffect examplePostEffects 0 1 2
        (glm.clamp 2 0 1)).descVolumetricLightingScattering 0 = 2 ∧
    (PostEffectManager.blendPostEffect examplePostEffects 0 1 2
        2).descVolumetricLightingScattering 0
      ≠ (PostEffectManager.blendPostEffect examplePostEffects 0 1 2
        (glm.clamp 2 0 1)).descVolumetricLightingScattering 0 ∧
    (PostEffectManager.blendPostEffect examplePostEffects 0 1 2
        2).descVolumetricLightingScattering 0
      ≠ examplePostEffects.descVolumetricLightingScattering 2 ∧
    max (examplePostEffects.descVolumetricLightingScattering 1)
        (examplePostEffects.descVolumetricLightingScattering 2)
      < (PostEffectManager.blendPostEffect examplePostEffects 0 1 2
        2).descVolumetricLightingScattering 0 ∧
    (PostEffectManager.blendPostEffectWith Float32.mix examplePostEffects 0 1 2
        2).descVolumetricLightingScattering 0 = 3 ∧
    Float32.round (13421773 / 134217728) = 13421773 / 134217728 ∧
    (0 : ℚ) ≤ 13421773 / 134217728 ∧ (13421773 / 134217728 : ℚ) ≤ 1 ∧
    (PostEffectManager.blendPostEffectWith Float32.mix exampleTenthPostEffects 0 1 2
        (13421773 / 134217728)).descVolumetricLightingScattering 0 = 3355443 / 33554432 ∧
    (PostEffectManager.blendPostEffectWith Float32.mix exampleTenthPostEffects 0 1 2
        (13421773 / 134217728)).descVolumetricLightingScattering 0
      < min (exampleTenthPostEffects.descVolumetricLightingScattering 1)
          (exampleTenthPostEffects.descVolumetricLightingScattering 2) := by
  refine ⟨by decide!, by decide!, by decide!, by decide!, by decide!, by decide!, by decide!,
    by decide!, by decide!, by decide!, by decide!⟩

theorem mix_between [LinearOrderedField F] (x y a : F) (h0 : 0 ≤ a) (h1 : a ≤ 1) :
    min x y ≤ glm.mix x y a ∧ glm.mix x y a ≤ max x y := by
  unfold glm.mix
  have h1a : 0 ≤ 1 - a := sub_nonneg.mpr h1
  constructor
  · calc min x y = min x y * (1 - a) + min x y * a := by ring
      _ ≤ x * (1 - a) + y * a :=
        add_le_add (mul_le_mul_of_nonneg_right (min_le_left x y) h1a)
          (mul_le_mul_of_nonneg_right (min_le_right x y) h0)
  · calc x * (1 - a) + y * a ≤ max x y * (1 - a) + max x y * a :=
        add_le_add (mul_le_mul_of_nonneg_right (le_max_left x y) h1a)
          (mul_le_mul_of_nonneg_right (le_max_right x y) h0)
      _ = max x y := by ring

theorem clamp_of_mem [LinearOrderedField F] (a : F) (h0 : 0 ≤ a) (h1 : a ≤ 1) :
    glm.clamp a 0 1 = a := by
  unfold glm.clamp
  rw [max_eq_left h0, min_eq_left h1]

theorem blendPostEffectWith_fields (mix : F → F → F → F) (d : PostEffectData F β)
    (target left right : Nat) (f : F) :
    (PostEffectManager.blendPostEffectWith mix d target left right
        f).descVolumetricLightingScattering target
      = mix (d.descVolumetricLightingScattering left)
          (d.descVolumetricLightingScattering right) f ∧
    (PostEffectManager.blendPostEffectWith mix d target left right
        f).descVolumetricLightingLocalLightIntensity target
      = mix (d.descVolumetricLightingLocalLightIntensity left)
          (d.descVolumetricLightingLocalLightIntensity right) f := by
  constructor <;> simp [PostEffectManager.blendPostEffectWith]

/-- C10 (as amended).  `blendPostEffect` hands the factor to `glm::mix` as it is given, no
clamp is applied: for every `f` and whatever arithmetic `mix` is computed in, each target
field becomes `mix(left, right, f)` of the values held before the call.  For `0 ≤ f ≤ 1`
this is the blend with `clamp(f, 0, 1)`.  When `mix` is computed exactly, as
`x * (1 - a) + y * a` in the field, the blend is `blendPostEffect` and for `0 ≤ f ≤ 1` each
resulting field lies between the two operands; nothing of the kind is stated for a `mix`
that rounds. -/
theorem blendPostEffect_factor [LinearOrderedField F] (mix : F → F → F → F)
    (d : PostEffectData F β) (target left right : Nat) (f : F) :
    (PostEffectManager.blendPostEffectWith mix d target left right
        f).descVolumetricLightingScattering target
      = mix (d.descVolumetricLightingScattering left)
          (d.descVolumetricLightingScattering right) f ∧
    (PostEffectManager.blendPostEffectWith mix d target left right
        f).descVolumetricLightingLocalLightIntensity target
      = mix (d.descVolumetricLightingLocalLightIntensity left)
          (d.descVolumetricLightingLocalLightIntensity right) f ∧
    (0 ≤ f → f ≤ 1 →
      PostEffectManager.blendPostEffectWith mix d target left right f
        = PostEffectManager.blendPostEffectWith mix d target left right (glm.clamp f 0 1)) ∧
    PostEffectManager.blendPostEffectWith glm.mix d target left right f
      = PostEffectManager.blendPostEffect d target left right f ∧
    ((∀ x y a, mix x y a = x * (1 - a) + y * a) → 0 ≤ f → f ≤ 1 →
      min (d.descVolumetricLightingScattering left) (d.descVolumetricLightingScattering right)
        ≤ (PostEffectManager.blendPostEffectWith mix d target left right
            f).descVolumetricLightingScattering target ∧
      (PostEffectManager.blendPostEffectWith mix d target left right
            f).descVolumetricLightingScattering target
        ≤ max (d.descVolumetricLightingScattering left)
            (d.descVolumetricLightingScattering right) ∧
      min (d.descVolumetricLightingLocalLightIntensity left)
          (d.descVolumetricLightingLocalLightIntensity right)
        ≤ (PostEffectManager.blendPostEffectWith mix d target left right
            f).descVolumetricLightingLocalLightIntensity target ∧
      (PostEffectManager.blendPostEffectWith mix d target left right
            f).descVolumetricLightingLocalLightIntensity target
        ≤ max (d.descVolumetricLightingLocalLightIntensity left)
            (d.descVolumetricLightingLocalLightIntensity right)) := by
  obtain ⟨hs, hi⟩ := blendPostEffectWith_fields mix d target left right f
  refine ⟨hs, hi, fun h0 h1 => by rw [clamp_of_mem f h0 h1], rfl, fun hmix h0 h1 => ?_⟩
  have hexact : ∀ x y, mix x y f = glm.mix x y f := fun x y => hmix x y f
  rw [hs, hi, hexact, hexact]
  exact ⟨(mix_between _ _ f h0 h1).1, (mix_between _ _ f h0 h1).2,
    (mix_between _ _ f h0 h1).1, (mix_between _ _ f h0 h1).2⟩

/-- Witness of `blendPostEffect_factor`: with the binary32 `mix` at the factor 1/2 on the
example table, and with the exact `mix` for the interval. -/
theorem blendPostEffect_factor_witness :
    (0 : ℚ) ≤ 1 / 2 ∧ (1 / 2 : ℚ) ≤ 1 ∧
    PostEffectManager.blendPostEffectWith Float32.mix examplePostEffects 0 1 2 (1 / 2)
      = PostEffectManager.blendPostEffectWith Float32.mix examplePostEffects 0 1 2
          (glm.clamp (1 / 2) 0 1) ∧
    (∀ x y a : ℚ, glm.mix x y a = x * (1 - a) + y * a) ∧
    min (examplePostEffects.descVolumetricLightingScattering 1)
        (examplePostEffects.descVolumetricLightingScattering 2)
      ≤ (PostEffectManager.blendPostEffectWith glm.mix examplePostEffects 0 1 2
          (1 / 2)).descVolumetricLightingScattering 0 :=
  ⟨by norm_num, by norm_num,
    (blendPostEffect_factor Float32.mix examplePostEffects 0 1 2 (1 / 2)).2.2.1 (by norm_num)
      (by norm_num),
    fun _ _ _ => rfl,
    ((blendPostEffect_factor glm.mix examplePostEffects 0 1 2 (1 / 2)).2.2.2.2
      (fun _ _ _ => rfl) (by norm_num) (by norm_num)).1⟩

end TableClaims

/-! ## Swarm resources -/

section SwarmResources

open SwarmManager

variable {F Q : Type} [LinearOrderedField F]

theorem foldl_range_succ {σ : Type} (f : σ → Nat → σ) (s : σ) (n : Nat) :
    (List.range (n + 1)).foldl f s = f ((List.range n).foldl f s) n := by
  rw [List.range_succ, List.foldl_append]
  rfl

theorem spawnBoid_loop (env : SpawnEnv) (node : NodeData F Q) (swarmRef : Nat)
    (s : SpawnState F) (n : Nat) :
    ((List.range n).foldl (spawnBoid env node swarmRef) s).swarm.entity = s.swarm.entity ∧
    (∀ r, ((List.range n).foldl (spawnBoid env node swarmRef) s).swarm.boids r
      = s.swarm.boids r ++ List.replicate (if r = swarmRef then n else 0)
          ⟨node.worldPosition (env.getComponentForEntity (s.swarm.entity swarmRef)), 0⟩) ∧
    (∀ r, ∃ l, ((List.range n).foldl (spawnBoid env node swarmRef) s).swarm.nodes r
      = s.swarm.nodes r ++ l ∧ l.length = if r = swarmRef then n else 0) := by
  induction n with
  | zero =>
    refine ⟨rfl, fun r => ?_, fun r => ⟨[], ?_, ?_⟩⟩
    · simp
    · simp
    · simp
  | succ n ih =>
    obtain ⟨he, hb, hn⟩ := ih
    rw [foldl_range_succ]
    refine ⟨?_, fun r => ?_, fun r => ?_⟩
    · simpa [spawnBoid] using he
    · by_cases hr : r = swarmRef
      · subst hr
        simp only [spawnBoid, Function.update_same, if_true]
        rw [hb r, he, List.replicate_succ', if_pos rfl, List.append_assoc]
      · simp only [spawnBoid, Function.update_noteq hr, if_neg hr]
        rw [hb r, if_neg hr]
    · obtain ⟨l, hl, hlen⟩ := hn r
      by_cases hr : r = swarmRef
      · subst hr
        refine ⟨l ++ [env.createNode ((List.range n).foldl (spawnBoid env node r) s).spawned],
          ?_, ?_⟩
        · simp only [spawnBoid, Function.update_same]
          rw [hl, List.append_assoc]
        · simp [hlen]
      · refine ⟨l, ?_, ?_⟩
        · simp only [spawnBoid, Function.update_noteq hr]
          exact hl
        · simpa [hr] using hlen

theorem createResources_loop (env : SpawnEnv) (node : NodeData F Q) (p_Swarms : List Nat)
    (s : SpawnState F) :
    (p_Swarms.foldl
      (fun s swarmRef => (List.range BOID_COUNT).foldl (spawnBoid env node swarmRef) s)
      s).swarm.entity = s.swarm.entity ∧
    (∀ r, (p_Swarms.foldl
      (fun s swarmRef => (List.range BOID_COUNT).foldl (spawnBoid env node swarmRef) s)
      s).swarm.boids r
      = s.swarm.boids r ++ List.replicate (BOID_COUNT * p_Swarms.count r)
          ⟨node.worldPosition (env.getComponentForEntity (s.swarm.entity r)), 0⟩) ∧
    (∀ r, ∃ l, (p_Swarms.foldl
      (fun s swarmRef => (List.range BOID_COUNT).foldl (spawnBoid env node swarmRef) s)
      s).swarm.nodes r = s.swarm.nodes r ++ l ∧ l.length = BOID_COUNT * p_Swarms.count r) := by
  induction p_Swarms generalizing s with
  | nil =>
    refine ⟨rfl, fun r => ?_, fun r => ⟨[], ?_, ?_⟩⟩ <;> simp
  | cons a rest ih =>
    obtain ⟨he1, hb1, hn1⟩ := spawnBoid_loop env node a s BOID_COUNT
    obtain ⟨he, hb, hn⟩ := ih ((List.range BOID_COUNT).foldl (spawnBoid env node a) s)
    simp only [List.foldl_cons]
    refine ⟨he.trans he1, fun r => ?_, fun r => ?_⟩
    · rw [hb r, hb1 r, he1, List.append_assoc]
      by_cases hr : r = a
      · subst hr
        rw [if_pos rfl, ← List.replicate_add]
        simp [Nat.mul_add, Nat.add_comm]
      · have hne : ¬ a = r := fun h => hr h.symm
        simp [hr, List.count_cons, hne]
    · obtain ⟨l1, hl1, hlen1⟩ := hn1 r
      obtain ⟨l2, hl2, hlen2⟩ := hn r
      refine ⟨l1 ++ l2, ?_, ?_⟩
      · rw [hl2, hl1, List.append_assoc]
      · rw [List.length_append, hlen1, hlen2]
        by_cases hr : r = a
        · subst hr
          simp [Nat.mul_add, Nat.add_comm]
        · have hne : ¬ a = r := fun h => hr h.symm
          simp [hr, List.count_cons, hne]

theorem destroyResources_loop {G : Type} (rootValid : Bool) (p_Swarms : List Nat)
    (s : SwarmData G × List Nat) (r : Nat) :
    (p_Swarms.foldl
      (fun s swarmRef =>
        (({ s.1 with
            boids := Function.update s.1.boids swarmRef []
            nodes := Function.update s.1.nodes swarmRef [] } : SwarmData G),
          s.2 ++ (if rootValid then s.1.nodes swarmRef else []))) s).1.boids r
      = (if r ∈ p_Swarms then [] else s.1.boids r) ∧
    (p_Swarms.foldl
      (fun s swarmRef =>
        (({ s.1 with
            boids := Function.update s.1.boids swarmRef []
            nodes := Function.update s.1.nodes swarmRef [] } : SwarmData G),
          s.2 ++ (if rootValid then s.1.nodes swarmRef else []))) s).1.nodes r
      = (if r ∈ p_Swarms then [] else s.1.nodes r) := by
  induction p_Swarms generalizing s with
  | nil => simp
  | cons a rest ih =>
    simp only [List.foldl_cons]
    obtain ⟨hb, hn⟩ := ih (({ s.1 with
            boids := Function.update s.1.boids a []
            nodes := Function.update s.1.nodes a [] } : SwarmData G),
          s.2 ++ (if rootValid then s.1.nodes a else []))
    rw [hb, hn]
    by_cases hr : r = a
    · subst hr
      simp
    · by_cases hm : r ∈ rest
      · simp [hm]
      · simp [hm, hr, Function.update_noteq hr]

/-- C9.  For every swarm reference `r`, `createResources` appends to its boid sequence
`200 * (number of occurrences of r in the batch)` records, each at the world position of the
node of the swarm's entity with velocity zero, and as many node references to its node
sequence; so `boids.size() == nodes.size()` is preserved.  `destroyResources` empties both
sequences of every swarm of its batch. -/
theorem createResources_appends (env : SpawnEnv) (node : NodeData F Q) (p_Swarms : List Nat)
    (d : SwarmData F) (r : Nat) (rootValid : Bool) :
    BOID_COUNT = 200 ∧
    (createResources env node p_Swarms d).swarm.boids r
      = d.boids r ++ List.replicate (200 * p_Swarms.count r)
          ⟨node.worldPosition (env.getComponentForEntity (d.entity r)), 0⟩ ∧
    (∃ l, (createResources env node p_Swarms d).swarm.nodes r = d.nodes r ++ l ∧
      l.length = 200 * p_Swarms.count r) ∧
    ((d.boids r).length = (d.nodes r).length →
      ((createResources env node p_Swarms d).swarm.boids r).length
        = ((createResources env node p_Swarms d).swarm.nodes r).length) ∧
    (r ∈ p_Swarms →
      (destroyResources rootValid p_Swarms d).1.boids r = [] ∧
      (destroyResources rootValid p_Swarms d).1.nodes r = [] ∧
      ((destroyResources rootValid p_Swarms d).1.boids r).length
        = ((destroyResources rootValid p_Swarms d).1.nodes r).length) := by
  obtain ⟨_, hb, hn⟩ := createResources_loop env node p_Swarms (⟨d, 0, []⟩ : SpawnState F)
  obtain ⟨hdb, hdn⟩ := destroyResources_loop rootValid p_Swarms ((d, []) : SwarmData F × List Nat) r
  refine ⟨rfl, hb r, hn r, fun hsz => ?_, fun hr => ?_⟩
  · obtain ⟨l, hl, hlen⟩ := hn r
    unfold createResources
    rw [hb r, hl]
    simp [hsz, hlen, BOID_COUNT]
  · unfold destroyResources
    rw [hdb, hdn]
    simp [hr]

/-- Witness of `createResources_appends`: swarm 0 of the example table has one boid and one
node and occurs twice in the batch `[0, 1, 0]`. -/
theorem createResources_appends_witness :
    ((exampleSwarms ℚ).boids 0).length = ((exampleSwarms ℚ).nodes 0).length ∧ 0 ∈ [0, 1, 0] ∧
    ((SwarmManager.createResources exampleSpawnEnv (exampleNodes ℚ) [0, 1, 0]
        (exampleSwarms ℚ)).swarm.boids 0).length
      = ((SwarmManager.createResources exampleSpawnEnv (exampleNodes ℚ) [0, 1, 0]
        (exampleSwarms ℚ)).swarm.nodes 0).length ∧
    (SwarmManager.destroyResources true [0, 1, 0] (exampleSwarms ℚ)).1.boids 0 = [] :=
  ⟨by decide, by decide,
    (createResources_appends exampleSpawnEnv (exampleNodes ℚ) [0, 1, 0] (exampleSwarms ℚ) 0 true).2.2.2.1
      (by decide),
    ((createResources_appends exampleSpawnEnv (exampleNodes ℚ) [0, 1, 0] (exampleSwarms ℚ) 0
      true).2.2.2.2 (by decide)).1⟩

end SwarmResources

/-! ## Vectors -/

section Vectors

variable {F : Type} [LinearOrderedField F]

theorem Vec3.eq_of_components {G : Type} {a b : Vec3 G} (hx : a.x = b.x) (hy : a.y = b.y)
    (hz : a.z = b.z) : a = b := by
  cases a
  cases b
  simp_all

@[simp]
theorem Vec3.zero_x : (0 : Vec3 F).x = 0 := rfl

@[simp]
theorem Vec3.zero_y : (0 : Vec3 F).y = 0 := rfl

@[simp]
theorem Vec3.zero_z : (0 : Vec3 F).z = 0 := rfl

@[simp]
theorem Vec3.add_x (a b : Vec3 F) : (a + b).x = a.x + b.x := rfl

@[simp]
theorem Vec3.add_y (a b : Vec3 F) : (a + b).y = a.y + b.y := rfl

@[simp]
theorem Vec3.add_z (a b : Vec3 F) : (a + b).z = a.z + b.z := rfl

@[simp]
theorem Vec3.sub_x (a b : Vec3 F) : (a - b).x = a.x - b.x := rfl

@[simp]
theorem Vec3.sub_y (a b : Vec3 F) : (a - b).y = a.y - b.y := rfl

@[simp]
theorem Vec3.sub_z (a b : Vec3 F) : (a - b).z = a.z - b.z := rfl

@[simp]
theorem Vec3.mul_x (a : Vec3 F) (s : F) : (a * s).x = a.x * s := rfl

@[simp]
theorem Vec3.mul_y (a : Vec3 F) (s : F) : (a * s).y = a.y * s := rfl

@[simp]
theorem Vec3.mul_z (a : Vec3 F) (s : F) : (a * s).z = a.z * s := rfl

@[simp]
theorem Vec3.div_x (a : Vec3 F) (s : F) : (a / s).x = a.x / s := rfl

@[simp]
theorem Vec3.div_y (a : Vec3 F) (s : F) : (a / s).y = a.y / s := rfl

@[simp]
theorem Vec3.div_z (a : Vec3 F) (s : F) : (a / s).z = a.z / s := rfl

@[simp]
theorem Vec3.sum_x (l : List (Vec3 F)) : (Vec3.sum l).x = (l.map Vec3.x).sum := rfl

@[simp]
theorem Vec3.sum_y (l : List (Vec3 F)) : (Vec3.sum l).y = (l.map Vec3.y).sum := rfl

@[simp]
theorem Vec3.sum_z (l : List (Vec3 F)) : (Vec3.sum l).z = (l.map Vec3.z).sum := rfl

theorem Vec3.sum_nil : Vec3.sum ([] : List (Vec3 F)) = 0 := rfl

theorem Vec3.sum_concat (l : List (Vec3 F)) (v : Vec3 F) :
    Vec3.sum (l ++ [v]) = Vec3.sum l + v := by
  apply Vec3.eq_of_components <;> simp

theorem List.sum_map_sub_mul {α : Type} (f g : α → F) (c : F) (l : List α) :
    (l.map (fun b => f b - g b * c)).sum = (l.map f).sum - (l.map g).sum * c := by
  induction l with
  | nil => simp
  | cons b l ih =>
    simp only [List.map_cons, List.sum_cons, ih]
    ring

theorem Vec3.sum_pre_integration (p_DeltaT : F) (l : List (Boid F)) :
    Vec3.sum (l.map (fun b => b.pos - b.vel * p_DeltaT))
      = Vec3.sum (l.map Boid.pos) - Vec3.sum (l.map Boid.vel) * p_DeltaT := by
  apply Vec3.eq_of_components
  · simpa [List.map_map, Function.comp] using
      List.sum_map_sub_mul (fun b : Boid F => b.pos.x) (fun b => b.vel.x) p_DeltaT l
  · simpa [List.map_map, Function.comp] using
      List.sum_map_sub_mul (fun b : Boid F => b.pos.y) (fun b => b.vel.y) p_DeltaT l
  · simpa [List.map_map, Function.comp] using
      List.sum_map_sub_mul (fun b : Boid F => b.pos.z) (fun b => b.vel.z) p_DeltaT l

theorem Vec3.mean_pre_integration (p_DeltaT : F) (l : List (Boid F)) :
    Vec3.mean (l.map (fun b => b.pos - b.vel * p_DeltaT))
      = Vec3.mean (l.map Boid.pos) - Vec3.mean (l.map Boid.vel) * p_DeltaT := by
  unfold Vec3.mean
  rw [Vec3.sum_pre_integration]
  apply Vec3.eq_of_components <;> simp <;> ring

theorem List.take_succ_set {α : Type} (l : List α) (n : Nat) (b : α) (h : n < l.length) :
    (l.set n b).take (n + 1) = l.take n ++ [b] := by
  induction l generalizing n with
  | nil => simp at h
  | cons a t ih =>
    cases n with
    | zero => simp
    | succ m =>
      have hm : m < t.length := by simpa using h
      simp [ih m hm]

end Vectors

/-! ## The swarm tick -/

section SwarmTick

open SwarmManager

variable {F Q : Type} [LinearOrderedField F]

theorem Vec3.add_assoc' (a b c : Vec3 F) : a + b + c = a + (b + c) := by
  apply Vec3.eq_of_components <;> simp [add_assoc]

theorem Vec3.zero_add' (a : Vec3 F) : 0 + a = a := by
  apply Vec3.eq_of_components <;> simp

theorem clampSpeed_pos (sqrt : F → F) (b : Boid F) : (clampSpeed sqrt b).pos = b.pos := by
  unfold clampSpeed
  by_cases h : glm.length sqrt b.vel > (maxVel : F)
  · simp [h]
  · simp [h]

theorem integrate_clampSpeed_pre (sqrt : F → F) (p_DeltaT : F) (b : Boid F) :
    (integrate p_DeltaT (clampSpeed sqrt b)).pos
        - (integrate p_DeltaT (clampSpeed sqrt b)).vel * p_DeltaT = b.pos := by
  have hp := clampSpeed_pos sqrt b
  apply Vec3.eq_of_components <;> simp [integrate, hp]

theorem simulateBoid_eq (env : SwarmEnv F Q) (p_DeltaT : F) (com avg : Vec3 F) (snr : Nat)
    (g : F) (nodes : List Nat) (s : SimState F Q) (i nodeRef : Nat) (boid : Boid F)
    (hn : nodes[i]? = some nodeRef) (hb : s.boids[i]? = some boid) :
    (simulateBoid env p_DeltaT com avg snr g nodes s i).boids
      = s.boids.set i
          (tickBoid env p_DeltaT com avg (s.nodeData.worldPosition snr) g s.boids i s.rng
            boid) ∧
    (simulateBoid env p_DeltaT com avg snr g nodes s i).newCenterOfMass
      = s.newCenterOfMass +
          (applyRules env p_DeltaT com avg (s.nodeData.worldPosition snr) g s.boids i s.rng
            boid).pos ∧
    (simulateBoid env p_DeltaT com avg snr g nodes s i).newAvgVelocity
      = s.newAvgVelocity +
          (tickBoid env p_DeltaT com avg (s.nodeData.worldPosition snr) g s.boids i s.rng
            boid).vel := by
  simp [simulateBoid, hn, hb, tickBoid, integrate]

theorem simulateBoids_succ (env : SwarmEnv F Q) (p_DeltaT : F) (com avg : Vec3 F) (snr : Nat)
    (g : F) (nodes : List Nat) (s : SimState F Q) (n : Nat) :
    simulateBoids env p_DeltaT com avg snr g nodes s (n + 1)
      = simulateBoid env p_DeltaT com avg snr g nodes
          (simulateBoids env p_DeltaT com avg snr g nodes s n) n := by
  unfold simulateBoids
  exact foldl_range_succ _ _ _

theorem simulateBoids_invariant (env : SwarmEnv F Q) (p_DeltaT : F) (com avg : Vec3 F)
    (snr : Nat) (g : F) (nodes : List Nat) (s : SimState F Q)
    (hsz : s.boids.length = nodes.length) (n : Nat) (hn : n ≤ s.boids.length) :
    (simulateBoids env p_DeltaT com avg snr g nodes s n).boids.length = s.boids.length ∧
    (simulateBoids env p_DeltaT com avg snr g nodes s n).newCenterOfMass
      = s.newCenterOfMass + Vec3.sum
          (((simulateBoids env p_DeltaT com avg snr g nodes s n).boids.take n).map
            (fun b => b.pos - b.vel * p_DeltaT)) ∧
    (simulateBoids env p_DeltaT com avg snr g nodes s n).newAvgVelocity
      = s.newAvgVelocity + Vec3.sum
          (((simulateBoids env p_DeltaT com avg snr g nodes s n).boids.take n).map Boid.vel) ∧
    (∀ b ∈ (simulateBoids env p_DeltaT com avg snr g nodes s n).boids.take n,
      ∃ b0, b = integrate p_DeltaT (clampSpeed env.sqrt b0)) := by
  induction n with
  | zero =>
    refine ⟨rfl, ?_, ?_, ?_⟩
    · apply Vec3.eq_of_components <;> simp [simulateBoids]
    · apply Vec3.eq_of_components <;> simp [simulateBoids]
    · intro b hb
      simp at hb
  | succ n ih =>
    obtain ⟨hlen, hcom, havg, hshape⟩ := ih (Nat.le_of_succ_le hn)
    have hlt : n < (simulateBoids env p_DeltaT com avg snr g nodes s n).boids.length := by
      rw [hlen]; exact hn
    have hltn : n < nodes.length := by rw [← hsz]; exact hn
    obtain ⟨hb, hc, ha⟩ := simulateBoid_eq env p_DeltaT com avg snr g nodes
      (simulateBoids env p_DeltaT com avg snr g nodes s n) n nodes[n]
      ((simulateBoids env p_DeltaT com avg snr g nodes s n).boids[n])
      (List.getElem?_eq_getElem hltn) (List.getElem?_eq_getElem hlt)
    rw [simulateBoids_succ]
    rw [hb, hc, ha, List.take_succ_set _ _ _ hlt, List.length_set]
    refine ⟨hlen, ?_, ?_, ?_⟩
    · rw [List.map_append, List.map_cons, List.map_nil, Vec3.sum_concat, hcom,
        Vec3.add_assoc']
      unfold tickBoid
      rw [integrate_clampSpeed_pre]
    · rw [List.map_append, List.map_cons, List.map_nil, Vec3.sum_concat, havg,
        Vec3.add_assoc']
    · intro b hbmem
      rcases List.mem_append.mp hbmem with hmem | hmem
      · exact hshape b hmem
      · rw [List.mem_singleton] at hmem
        exact ⟨_, hmem⟩

theorem updateSwarm_spec (env : SwarmEnv F Q) (p_DeltaT : F) (w : SwarmWorld F Q) (r : Nat)
    (hsz : (w.swarm.boids r).length = (w.swarm.nodes r).length) :
    ∃ w', updateSwarm env p_DeltaT w r = some w' ∧
      (w'.swarm.boids r).length = (w.swarm.boids r).length ∧
      w'.swarm.nodes = w.swarm.nodes ∧
      (∀ r', r' ≠ r → w'.swarm.boids r' = w.swarm.boids r' ∧
        w'.swarm.currentCenterOfMass r' = w.swarm.currentCenterOfMass r' ∧
        w'.swarm.currentAverageVelocity r' = w.swarm.currentAverageVelocity r') ∧
      w'.swarm.currentCenterOfMass r
        = Vec3.mean ((w'.swarm.boids r).map (fun b => b.pos - b.vel * p_DeltaT)) ∧
      w'.swarm.currentAverageVelocity r = Vec3.mean ((w'.swarm.boids r).map Boid.vel) ∧
      (∀ b ∈ w'.swarm.boids r, ∃ b0, b = integrate p_DeltaT (clampSpeed env.sqrt b0)) := by
  obtain ⟨hlen, hcom, havg, hshape⟩ := simulateBoids_invariant env p_DeltaT
    (w.swarm.currentCenterOfMass r) (w.swarm.currentAverageVelocity r)
    (env.getComponentForEntity (w.swarm.entity r))
    (groundPlaneHeight env (w.swarm.currentCenterOfMass r)) (w.swarm.nodes r)
    (⟨w.swarm.boids r, w.node, w.rng, 0, 0⟩ : SimState F Q) hsz (w.swarm.boids r).length
    (le_refl _)
  simp only at hlen hcom havg hshape
  rw [List.take_of_length_le (le_of_eq hlen)] at hcom havg hshape
  simp only [updateSwarm]
  rw [if_pos hsz]
  refine ⟨_, rfl, ?_, rfl, fun r' hr' => ?_, ?_, ?_, ?_⟩
  · simp only [Function.update_same]
    exact hlen
  · simp only [Function.update_noteq hr']
    exact ⟨trivial, trivial, trivial⟩
  · simp only [Function.update_same]
    rw [hcom, Vec3.zero_add']
    unfold Vec3.mean
    rw [List.length_map, hlen]
  · simp only [Function.update_same]
    rw [havg, Vec3.zero_add']
    unfold Vec3.mean
    rw [List.length_map, hlen]
  · simp only [Function.update_same]
    exact hshape

theorem updateSwarms_forall (env : SwarmEnv F Q) (p_DeltaT : F)
    (P : List (Boid F) → Vec3 F → Vec3 F → Prop)
    (hP : ∀ (w : SwarmWorld F Q) (r : Nat),
      (w.swarm.boids r).length = (w.swarm.nodes r).length →
      ∃ w', updateSwarm env p_DeltaT w r = some w' ∧
        (w'.swarm.boids r).length = (w.swarm.boids r).length ∧
        w'.swarm.nodes = w.swarm.nodes ∧
        (∀ r', r' ≠ r → w'.swarm.boids r' = w.swarm.boids r' ∧
          w'.swarm.currentCenterOfMass r' = w.swarm.currentCenterOfMass r' ∧
          w'.swarm.currentAverageVelocity r' = w.swarm.currentAverageVelocity r') ∧
        P (w'.swarm.boids r) (w'.swarm.currentCenterOfMass r)
          (w'.swarm.currentAverageVelocity r))
    (p_Swarms : List Nat) (w : SwarmWorld F Q)
    (hsz : ∀ r ∈ p_Swarms, (w.swarm.boids r).length = (w.swarm.nodes r).length) :
    ∃ w', updateSwarms env p_Swarms p_DeltaT w = some w' ∧
      (∀ r, (w'.swarm.boids r).length = (w.swarm.boids r).length) ∧
      w'.swarm.nodes = w.swarm.nodes ∧
      (∀ r, r ∉ p_Swarms → w'.swarm.boids r = w.swarm.boids r ∧
        w'.swarm.currentCenterOfMass r = w.swarm.currentCenterOfMass r ∧
        w'.swarm.currentAverageVelocity r = w.swarm.currentAverageVelocity r) ∧
      (∀ r ∈ p_Swarms, P (w'.swarm.boids r) (w'.swarm.currentCenterOfMass r)
        (w'.swarm.currentAverageVelocity r)) := by
  induction p_Swarms generalizing w with
  | nil =>
    exact ⟨w, rfl, fun _ => rfl, rfl, fun _ _ => ⟨rfl, rfl, rfl⟩, fun r hr => by simp at hr⟩
  | cons a rest ih =>
    obtain ⟨w1, h1, hlen1, hnodes1, hframe1, hP1⟩ := hP w a (hsz a (List.mem_cons_self a rest))
    have hlenall : ∀ r, (w1.swarm.boids r).length = (w.swarm.boids r).length := by
      intro r
      by_cases hr : r = a
      · rw [hr]; exact hlen1
      · rw [(hframe1 r hr).1]
    have hsz1 : ∀ r ∈ rest, (w1.swarm.boids r).length = (w1.swarm.nodes r).length := by
      intro r hr
      rw [hlenall r, hnodes1]
      exact hsz r (List.mem_cons_of_mem a hr)
    obtain ⟨w2, h2, hlen2, hnodes2, hframe2, hP2⟩ := ih w1 hsz1
    refine ⟨w2, ?_, fun r => (hlen2 r).trans (hlenall r), hnodes2.trans hnodes1,
      fun r hr => ?_, fun r hr => ?_⟩
    · unfold updateSwarms at h2 ⊢
      rw [List.foldlM_cons, h1]
      exact h2
    · have hra : r ≠ a := fun h => hr (h ▸ List.mem_cons_self a rest)
      have hrr : r ∉ rest := fun h => hr (List.mem_cons_of_mem a h)
      obtain ⟨e1, e2, e3⟩ := hframe2 r hrr
      obtain ⟨f1, f2, f3⟩ := hframe1 r hra
      exact ⟨e1.trans f1, e2.trans f2, e3.trans f3⟩
    · by_cases hrr : r ∈ rest
      · exact hP2 r hrr
      · have hra : r = a := by
          rcases List.mem_cons.mp hr with h | h
          · exact h
          · exact absurd h hrr
        obtain ⟨e1, e2, e3⟩ := hframe2 r hrr
        rw [e1, e2, e3, hra]
        exact hP1

theorem glm.dot_self_nonneg (v : Vec3 F) : 0 ≤ glm.dot v v := by
  unfold glm.dot
  have hx := mul_self_nonneg v.x
  have hy := mul_self_nonneg v.y
  have hz := mul_self_nonneg v.z
  linarith

theorem sqrt_mul_self (sqrt : F → F) (hsq : ∀ x, 0 ≤ x → sqrt x * sqrt x = x)
    (hnn : ∀ x, 0 ≤ sqrt x) (y : F) (hy : 0 ≤ y) : sqrt (y * y) = y :=
  (mul_self_inj_of_nonneg (hnn _) hy).mp (hsq (y * y) (mul_self_nonneg y))

theorem clampSpeed_rescaled (sqrt : F → F) (hsq : ∀ x, 0 ≤ x → sqrt x * sqrt x = x)
    (hnn : ∀ x, 0 ≤ sqrt x) (b : Boid F) (h : (maxVel : F) < glm.length sqrt b.vel) :
    (clampSpeed sqrt b).vel = b.vel / glm.length sqrt b.vel * (maxVel : F) ∧
    glm.length sqrt (clampSpeed sqrt b).vel = maxVel := by
  have hv : (clampSpeed sqrt b).vel = b.vel / glm.length sqrt b.vel * (maxVel : F) := by
    unfold clampSpeed
    simp [h]
  refine ⟨hv, ?_⟩
  rw [hv]
  have hmax : (0 : F) ≤ maxVel := by unfold maxVel; norm_num
  have hLpos : 0 < glm.length sqrt b.vel := lt_of_le_of_lt hmax h
  have hL : glm.length sqrt b.vel * glm.length sqrt b.vel = glm.dot b.vel b.vel :=
    hsq _ (glm.dot_self_nonneg b.vel)
  have hdot : glm.dot (b.vel / glm.length sqrt b.vel * (maxVel : F))
      (b.vel / glm.length sqrt b.vel * (maxVel : F)) = (maxVel : F) * maxVel := by
    have hne : glm.length sqrt b.vel ≠ 0 := ne_of_gt hLpos
    have hexp : glm.dot (b.vel / glm.length sqrt b.vel * (maxVel : F))
        (b.vel / glm.length sqrt b.vel * (maxVel : F))
        = glm.dot b.vel b.vel / (glm.length sqrt b.vel * glm.length sqrt b.vel)
          * ((maxVel : F) * maxVel) := by
      simp only [glm.dot, Vec3.mul_x, Vec3.mul_y, Vec3.mul_z, Vec3.div_x, Vec3.div_y,
        Vec3.div_z]
      field_simp
      ring
    rw [hexp, hL, div_self (by rw [← hL]; exact mul_ne_zero hne hne), one_mul]
  show sqrt (glm.dot _ _) = maxVel
  rw [hdot]
  exact sqrt_mul_self sqrt hsq hnn maxVel hmax

theorem clampSpeed_bound (sqrt : F → F) (hsq : ∀ x, 0 ≤ x → sqrt x * sqrt x = x)
    (hnn : ∀ x, 0 ≤ sqrt x) (b : Boid F) :
    glm.length sqrt (clampSpeed sqrt b).vel ≤ maxVel := by
  by_cases h : (maxVel : F) < glm.length sqrt b.vel
  · exact le_of_eq (clampSpeed_rescaled sqrt hsq hnn b h).2
  · have hb : clampSpeed sqrt b = b := by
      unfold clampSpeed
      simp [h]
    rw [hb]
    exact not_lt.mp h

/-- C1, counterexample.  One boid at rest at the origin, the swarm node at `(0, 0, 8)`, center
of mass and average velocity zero, `dt = 1`, no ray cast hit.  The target rule gives the boid
the velocity `(0, 0, 9)`, the integration moves it to `(0, 0, 9)`; the stored center of mass
is `(0, 0, 0)`, the position before the integration, while the mean of the boid positions
after the tick is `(0, 0, 9)`. -/
theorem updateSwarms_centerOfMass_not_post_integration :
    (updateSwarms exampleSwarmEnv [0] 1 ⟨exampleSwarms ℚ, exampleNodes ℚ, 0⟩).map
        (fun w => (w.swarm.boids 0, w.swarm.currentCenterOfMass 0,
          Vec3.mean ((w.swarm.boids 0).map Boid.pos)))
      = some ([⟨⟨0, 0, 9⟩, ⟨0, 0, 9⟩⟩], ⟨0, 0, 0⟩, ⟨0, 0, 9⟩) ∧
    (⟨0, 0, 0⟩ : Vec3 ℚ) ≠ ⟨0, 0, 9⟩ := by
  refine ⟨by decide!, by decide⟩

/-- C1 (as amended).  When the size assertion holds for the swarms of the batch,
`updateSwarms` returns, and for every swarm of the batch with at least one boid the stored
center of mass is the arithmetic mean of the positions the boids held when they were added
to the accumulator, that is before `boid.pos += boid.vel * dt`: the mean of
`pos - vel * dt` over the boids after the tick, which is the mean of the positions after the
tick minus `dt` times the stored average velocity. -/
theorem updateSwarms_centerOfMass (env : SwarmEnv F Q) (p_Swarms : List Nat) (p_DeltaT : F)
    (w : SwarmWorld F Q)
    (hsz : ∀ r ∈ p_Swarms, (w.swarm.boids r).length = (w.swarm.nodes r).length) :
    ∃ w', updateSwarms env p_Swarms p_DeltaT w = some w' ∧
      ∀ r ∈ p_Swarms, 1 ≤ (w.swarm.boids r).length →
        (w'.swarm.boids r).length = (w.swarm.boids r).length ∧
        w'.swarm.currentCenterOfMass r
          = Vec3.mean ((w'.swarm.boids r).map (fun b => b.pos - b.vel * p_DeltaT)) ∧
        w'.swarm.currentCenterOfMass r
          = Vec3.mean ((w'.swarm.boids r).map Boid.pos)
            - w'.swarm.currentAverageVelocity r * p_DeltaT := by
  obtain ⟨w', hw', hlen, _, _, hP⟩ := updateSwarms_forall env p_DeltaT
    (fun boids com avg =>
      com = Vec3.mean (boids.map (fun b => b.pos - b.vel * p_DeltaT)) ∧
      avg = Vec3.mean (boids.map Boid.vel))
    (fun w r h => by
      obtain ⟨w1, h1, h2, h3, h4, h5, h6, _⟩ := updateSwarm_spec env p_DeltaT w r h
      exact ⟨w1, h1, h2, h3, h4, h5, h6⟩)
    p_Swarms w hsz
  refine ⟨w', hw', fun r hr _ => ⟨hlen r, (hP r hr).1, ?_⟩⟩
  rw [(hP r hr).2, ← Vec3.mean_pre_integration]
  exact (hP r hr).1

/-- Witness of `updateSwarms_centerOfMass` on the example swarm. -/
theorem updateSwarms_centerOfMass_witness :
    (∀ r ∈ [0], ((exampleSwarms ℚ).boids r).length = ((exampleSwarms ℚ).nodes r).length) ∧
    ∃ w', updateSwarms exampleSwarmEnv [0] 1 ⟨exampleSwarms ℚ, exampleNodes ℚ, 0⟩ = some w' ∧
      ∀ r ∈ [0], 1 ≤ ((exampleSwarms ℚ).boids r).length →
        (w'.swarm.boids r).length = ((exampleSwarms ℚ).boids r).length ∧
        w'.swarm.currentCenterOfMass r
          = Vec3.mean ((w'.swarm.boids r).map (fun b => b.pos - b.vel * (1 : ℚ))) ∧
        w'.swarm.currentCenterOfMass r
          = Vec3.mean ((w'.swarm.boids r).map Boid.pos)
            - w'.swarm.currentAverageVelocity r * (1 : ℚ) :=
  ⟨by decide,
    updateSwarms_centerOfMass exampleSwarmEnv [0] 1 ⟨exampleSwarms ℚ, exampleNodes ℚ, 0⟩
      (by decide)⟩

end SwarmTick

/-! ## The camera cascade -/

section Cascade

open CameraManager

variable {F V : Type}

theorem SlotAllocator.allocate_some {a a' : SlotAllocator} {id : Nat}
    (h : a.allocate = some (id, a')) :
    id ∉ a.live ∧ id < a.capacity ∧ a' = { a with live := a.live ++ [id] } := by
  unfold SlotAllocator.allocate at h
  cases hf : (List.range a.capacity).find? (fun i => decide (i ∉ a.live)) with
  | none => rw [hf] at h; simp at h
  | some j =>
    rw [hf] at h
    simp only [Option.some.injEq, Prod.mk.injEq] at h
    obtain ⟨rfl, rfl⟩ := h
    have h1 := List.find?_some hf
    have h2 := List.mem_of_find?_eq_some hf
    exact ⟨by simpa using h1, List.mem_range.mp h2, rfl⟩

theorem SlotAllocator.allocate_isSome (a : SlotAllocator)
    (h : ∃ i, i < a.capacity ∧ i ∉ a.live) : ∃ id a', a.allocate = some (id, a') := by
  obtain ⟨i, hi, hil⟩ := h
  unfold SlotAllocator.allocate
  cases hf : (List.range a.capacity).find? (fun i => decide (i ∉ a.live)) with
  | none =>
    have := List.find?_eq_none.mp hf i (List.mem_range.mpr hi)
    simp [hil] at this
  | some j => exact ⟨j, _, rfl⟩

theorem SlotAllocator.release_some {a a' : SlotAllocator} {id : Nat}
    (h : a.release id = some a') : id ∈ a.live ∧ a' = { a with live := a.live.erase id } := by
  unfold SlotAllocator.release at h
  by_cases hm : id ∈ a.live
  · rw [if_pos hm] at h
    exact ⟨hm, (Option.some.inj h).symm⟩
  · rw [if_neg hm] at h
    simp at h

theorem destroyFrustum_some {a a' : SlotAllocator} {ref : Ref}
    (h : destroyFrustum a ref = some a') :
    ∃ f, ref = Ref.valid f ∧ f ∈ a.live ∧ a' = { a with live := a.live.erase f } := by
  cases ref with
  | invalid => simp [destroyFrustum] at h
  | valid f =>
    obtain ⟨h1, h2⟩ := SlotAllocator.release_some (show a.release f = some a' from h)
    exact ⟨f, rfl, h1, h2⟩

theorem createCamera_some {w w' : CameraWorld F V} {entity ref : Nat}
    (h : createCamera w entity = some (ref, w')) :
    ∃ fr, w.components.allocate = some (ref, w'.components) ∧
      w.frustums.allocate = some (fr, w'.frustums) ∧
      w'.data = { w.data with frustum := Function.update w.data.frustum ref (Ref.valid fr) } ∧
      w'.calls = w.calls ++
        [Call.createComponent entity ref, Call.createFrustum "CameraFrustum" fr] := by
  unfold createCamera at h
  cases hc : w.components.allocate with
  | none => rw [hc] at h; simp at h
  | some rc =>
    obtain ⟨r, comps⟩ := rc
    rw [hc] at h
    cases hf : w.frustums.allocate with
    | none => rw [hf] at h; simp at h
    | some rf =>
      obtain ⟨fr, frs⟩ := rf
      rw [hf] at h
      simp only [Option.some.injEq, Prod.mk.injEq] at h
      obtain ⟨rfl, rfl⟩ := h
      exact ⟨fr, rfl, rfl, rfl, rfl⟩

theorem destroyCamera_some {w w' : CameraWorld F V} {camera : Nat}
    (h : destroyCamera w camera = some w') :
    destroyFrustum w.frustums (w.data.frustum camera) = some w'.frustums ∧
    w.components.release camera = some w'.components ∧
    w'.data = { w.data with frustum := Function.update w.data.frustum camera Ref.invalid } ∧
    w'.calls = w.calls ++
      [Call.destroyFrustum (w.data.frustum camera), Call.destroyComponent camera] := by
  unfold destroyCamera at h
  cases hf : destroyFrustum w.frustums (w.data.frustum camera) with
  | none => rw [hf] at h; simp at h
  | some frs =>
    rw [hf] at h
    cases hc : w.components.release camera with
    | none => rw [hc] at h; simp at h
    | some comps =>
      rw [hc] at h
      simp only [Option.some.injEq] at h
      subst h
      exact ⟨rfl, rfl, rfl, rfl⟩

theorem CascadeInvariant_create {w w' : CameraWorld F V} {entity ref : Nat}
    (hinv : CascadeInvariant w) (h : createCamera w entity = some (ref, w')) :
    CascadeInvariant w' := by
  obtain ⟨fr, hc, hf, hd, _⟩ := createCamera_some h
  obtain ⟨hrl, _, hc'⟩ := SlotAllocator.allocate_some hc
  obtain ⟨hfl, _, hf'⟩ := SlotAllocator.allocate_some hf
  obtain ⟨n1, n2, hown, hinj, hcount⟩ := hinv
  have hne : ∀ c ∈ w.components.live, c ≠ ref := fun c hcm hcr => hrl (hcr ▸ hcm)
  refine ⟨?_, ?_, ?_, ?_, ?_⟩
  · rw [hc']
    exact List.Nodup.append n1 (List.nodup_singleton ref) (by simpa using hrl)
  · rw [hf']
    exact List.Nodup.append n2 (List.nodup_singleton fr) (by simpa using hfl)
  · intro c hcm
    rw [hc'] at hcm
    rw [hd, hf']
    rcases List.mem_append.mp hcm with hcm | hcm
    · obtain ⟨f, hf1, hf2⟩ := hown c hcm
      refine ⟨f, ?_, List.mem_append_left _ hf2⟩
      simp only [Function.update_noteq (hne c hcm)]
      exact hf1
    · rw [List.mem_singleton] at hcm
      subst hcm
      exact ⟨fr, by simp, by simp⟩
  · intro c hcm c' hcm' heq
    rw [hc'] at hcm hcm'
    rw [hd] at heq
    simp only at heq
    rcases List.mem_append.mp hcm with k1 | k1 <;>
      rcases List.mem_append.mp hcm' with k2 | k2
    · rw [Function.update_noteq (hne c k1), Function.update_noteq (hne c' k2)] at heq
      exact hinj c k1 c' k2 heq
    · rw [List.mem_singleton] at k2
      rw [k2, Function.update_noteq (hne c k1), Function.update_same] at heq
      obtain ⟨f, hf1, hf2⟩ := hown c k1
      rw [hf1] at heq
      exact absurd ((Ref.valid.inj heq) ▸ hf2) hfl
    · rw [List.mem_singleton] at k1
      rw [k1, Function.update_noteq (hne c' k2), Function.update_same] at heq
      obtain ⟨f, hf1, hf2⟩ := hown c' k2
      rw [hf1] at heq
      exact absurd ((Ref.valid.inj heq.symm) ▸ hf2) hfl
    · rw [List.mem_singleton] at k1 k2
      rw [k1, k2]
  · rw [hc', hf']
    simp [hcount]

theorem CascadeInvariant_destroy {w w' : CameraWorld F V} {camera : Nat}
    (hinv : CascadeInvariant w) (h : destroyCamera w camera = some w') :
    CascadeInvariant w' := by
  obtain ⟨hf, hc, hd, _⟩ := destroyCamera_some h
  obtain ⟨f, hfv, hfl, hf'⟩ := destroyFrustum_some hf
  obtain ⟨hcl, hc'⟩ := SlotAllocator.release_some hc
  obtain ⟨n1, n2, hown, hinj, hcount⟩ := hinv
  refine ⟨?_, ?_, ?_, ?_, ?_⟩
  · rw [hc']
    exact n1.erase camera
  · rw [hf']
    exact n2.erase f
  · intro c hcm
    rw [hc'] at hcm
    obtain ⟨hcne, hcm⟩ := (List.Nodup.mem_erase_iff n1).mp hcm
    obtain ⟨f', hf1, hf2⟩ := hown c hcm
    rw [hd, hf']
    refine ⟨f', ?_, ?_⟩
    · simp only [Function.update_noteq hcne]
      exact hf1
    · refine (List.Nodup.mem_erase_iff n2).mpr ⟨fun hff => hcne ?_, hf2⟩
      exact hinj c hcm camera hcl (by rw [hf1, hfv, hff])
  · intro c hcm c' hcm' heq
    rw [hc'] at hcm hcm'
    obtain ⟨hcne, hcm⟩ := (List.Nodup.mem_erase_iff n1).mp hcm
    obtain ⟨hcne', hcm'⟩ := (List.Nodup.mem_erase_iff n1).mp hcm'
    rw [hd] at heq
    simp only [Function.update_noteq hcne, Function.update_noteq hcne'] at heq
    exact hinj c hcm c' hcm' heq
  · rw [hc', hf']
    simp only
    rw [List.length_erase_of_mem hfl, List.length_erase_of_mem hcl, hcount]

theorem reachable_invariant {w : CameraWorld F V} (h : Reachable w) : CascadeInvariant w := by
  induction h with
  | init capacity frustumCapacity data =>
    refine ⟨List.nodup_nil, List.nodup_nil, ?_, ?_, rfl⟩
    · intro c hc
      simp at hc
    · intro c hc
      simp at hc
  | create _ hstep ih => exact CascadeInvariant_create ih hstep
  | destroy _ hstep ih => exact CascadeInvariant_destroy ih hstep

theorem destroyCamera_of_live {w : CameraWorld F V} (hinv : CascadeInvariant w) {c : Nat}
    (hc : c ∈ w.components.live) :
    ∃ w' f, destroyCamera w c = some w' ∧ w.data.frustum c = Ref.valid f ∧
      w'.frustums.live = w.frustums.live.erase f ∧ f ∉ w'.frustums.live ∧
      w'.components.live = w.components.live.erase c ∧
      ∀ c' ∈ w'.components.live, w'.data.frustum c' = w.data.frustum c' ∧
        ∃ f', w.data.frustum c' = Ref.valid f' ∧ f' ∈ w'.frustums.live := by
  obtain ⟨f, hf1, hf2⟩ := hinv.2.2.1 c hc
  have h : destroyCamera w c = some
      { components := { w.components with live := w.components.live.erase c }
        data := { w.data with frustum := Function.update w.data.frustum c Ref.invalid }
        frustums := { w.frustums with live := w.frustums.live.erase f }
        calls := w.calls ++ [Call.destroyFrustum (w.data.frustum c), Call.destroyComponent c] }
      := by
    unfold destroyCamera
    rw [hf1]
    simp [destroyFrustum, SlotAllocator.release, hf2, hc]
  have hinv' := CascadeInvariant_destroy hinv h
  refine ⟨_, f, h, hf1, rfl, ?_, rfl, fun c' hc' => ?_⟩
  · exact fun hmem => ((List.Nodup.mem_erase_iff hinv.2.1).mp hmem).1 rfl
  · have hne : c' ≠ c := ((List.Nodup.mem_erase_iff hinv.1).mp hc').1
    obtain ⟨f', hf1', hf2'⟩ := hinv'.2.2.1 c' hc'
    have hsame : Function.update w.data.frustum c Ref.invalid c' = w.data.frustum c' :=
      Function.update_noteq hne _ _
    refine ⟨hsame, f', ?_, hf2'⟩
    rw [← hsame]
    exact hf1'

/-- C5.  Cascade lifecycle.  `createCamera` allocates the camera slot first and stores in the
frustum field of that slot the reference returned by the one `createFrustum` call that
follows; no other frustum field changes; it succeeds whenever both managers have a free slot.
`destroyCamera c` calls `destroyFrustum` on the reference stored in the frustum field of `c`,
then releases the slot with `_destroyComponent`, leaves the invalid reference in the field
and changes no other frustum field.  In every state reached from empty managers by these two
operations, every live camera owns one live frustum, no frustum has two owners, there are as
many live frustums as live cameras, and destroying a live camera succeeds and removes exactly
its own frustum from the live frustums. -/
theorem camera_cascade_lifecycle (w : CameraWorld F V) :
    (∀ entity ref w', createCamera w entity = some (ref, w') →
      ∃ fr, w.components.allocate = some (ref, w'.components) ∧ ref ∉ w.components.live ∧
        w.frustums.allocate = some (fr, w'.frustums) ∧ fr ∉ w.frustums.live ∧
        w'.data.frustum ref = Ref.valid fr ∧
        w'.calls = w.calls ++
          [Call.createComponent entity ref, Call.createFrustum "CameraFrustum" fr] ∧
        ∀ c, c ≠ ref → w'.data.frustum c = w.data.frustum c) ∧
    ((∃ i, i < w.components.capacity ∧ i ∉ w.components.live) →
      (∃ j, j < w.frustums.capacity ∧ j ∉ w.frustums.live) →
      ∀ entity, ∃ ref w', createCamera w entity = some (ref, w')) ∧
    (∀ c w', destroyCamera w c = some w' →
      destroyFrustum w.frustums (w.data.frustum c) = some w'.frustums ∧
      w.components.release c = some w'.components ∧
      w'.calls = w.calls ++
        [Call.destroyFrustum (w.data.frustum c), Call.destroyComponent c] ∧
      w'.data.frustum c = Ref.invalid ∧
      ∀ c', c' ≠ c → w'.data.frustum c' = w.data.frustum c') ∧
    (Reachable w →
      CascadeInvariant w ∧
      ∀ c ∈ w.components.live,
        ∃ w' f, destroyCamera w c = some w' ∧ w.data.frustum c = Ref.valid f ∧
          w'.frustums.live = w.frustums.live.erase f ∧ f ∉ w'.frustums.live ∧
          w'.components.live = w.components.live.erase c ∧
          ∀ c' ∈ w'.components.live, w'.data.frustum c' = w.data.frustum c' ∧
            ∃ f', w.data.frustum c' = Ref.valid f' ∧ f' ∈ w'.frustums.live) := by
  refine ⟨fun entity ref w' h => ?_, fun hc hf entity => ?_, fun c w' h => ?_, fun h => ?_⟩
  · obtain ⟨fr, hc, hf, hd, hcalls⟩ := createCamera_some h
    refine ⟨fr, hc, (SlotAllocator.allocate_some hc).1, hf, (SlotAllocator.allocate_some hf).1,
      ?_, hcalls, fun c hne => ?_⟩
    · rw [hd]; simp
    · rw [hd]; simp [Function.update_noteq hne]
  · obtain ⟨ref, comps, hc'⟩ := SlotAllocator.allocate_isSome w.components hc
    obtain ⟨fr, frs, hf'⟩ := SlotAllocator.allocate_isSome w.frustums hf
    unfold createCamera
    rw [hc', hf']
    exact ⟨ref, _, rfl⟩
  · obtain ⟨hf, hc, hd, hcalls⟩ := destroyCamera_some h
    refine ⟨hf, hc, hcalls, ?_, fun c' hne => ?_⟩
    · rw [hd]; simp
    · rw [hd]; simp [Function.update_noteq hne]
  · exact ⟨reachable_invariant h,
      fun c hc => destroyCamera_of_live (reachable_invariant h) hc⟩

/-- Witness of `camera_cascade_lifecycle`: on empty managers of capacity 2, `createCamera`
for entity 5 returns camera 0 owning frustum 0, and the state it leaves is reachable and
satisfies the cascade invariant. -/
theorem camera_cascade_lifecycle_witness :
    createCamera exampleCameraWorld 5 = some (0, exampleCameraWorldCreated) ∧
    (∃ fr, exampleCameraWorld.components.allocate
        = some (0, exampleCameraWorldCreated.components) ∧
      0 ∉ exampleCameraWorld.components.live ∧
      exampleCameraWorld.frustums.allocate = some (fr, exampleCameraWorldCreated.frustums) ∧
      fr ∉ exampleCameraWorld.frustums.live ∧
      exampleCameraWorldCreated.data.frustum 0 = Ref.valid fr ∧
      exampleCameraWorldCreated.calls = exampleCameraWorld.calls ++
        [Call.createComponent 5 0, Call.createFrustum "CameraFrustum" fr] ∧
      ∀ c, c ≠ 0 → exampleCameraWorldCreated.data.frustum c
        = exampleCameraWorld.data.frustum c) ∧
    Reachable exampleCameraWorldCreated ∧
    CascadeInvariant exampleCameraWorldCreated :=
  ⟨rfl,
    (camera_cascade_lifecycle exampleCameraWorld).1 5 0 exampleCameraWorldCreated rfl,
    Reachable.create (Reachable.init 2 2 exampleCameras) rfl,
    ((camera_cascade_lifecycle exampleCameraWorldCreated).2.2.2
      (Reachable.create (Reachable.init 2 2 exampleCameras) rfl)).1⟩

end Cascade

/-! ## Reset and the cascade -/

section ResetFrame

open CameraManager

variable {F V : Type} [LinearOrderedField F]

theorem CascadeInvariant_of_frustum_eq {G W : Type} {w w' : CameraWorld G W}
    (hc : w'.components = w.components) (hf : w'.frustums = w.frustums)
    (hd : w'.data.frustum = w.data.frustum) (hinv : CascadeInvariant w) :
    CascadeInvariant w' := by
  unfold CascadeInvariant at hinv ⊢
  rw [hc, hf, hd]
  exact hinv

/-- C13.  `resetToDefault ref` leaves the frustum, forward and up arrays as they are, and
changes no description entry of another slot.  So when `createCamera` on a reachable state
has returned `ref`, a following `resetToDefault ref` keeps the frustum reference stored by
`createCamera` in the slot, and `destroyCamera ref` after that succeeds, calls
`destroyFrustum` on that reference and removes that frustum from the live frustums. -/
theorem resetToDefault_frame (radians : F → F) (d : CameraData F V) (ref : Nat) :
    (resetToDefault radians d ref).frustum = d.frustum ∧
    (resetToDefault radians d ref).forward = d.forward ∧
    (resetToDefault radians d ref).up = d.up ∧
    (∀ r, r ≠ ref →
      (resetToDefault radians d ref).descFov r = d.descFov r ∧
      (resetToDefault radians d ref).descNearPlane r = d.descNearPlane r ∧
      (resetToDefault radians d ref).descFarPlane r = d.descFarPlane r) ∧
    (∀ (w w1 : CameraWorld F V) (entity : Nat),
      Reachable w → createCamera w entity = some (ref, w1) →
      ∃ fr w3, w1.data.frustum ref = Ref.valid fr ∧ fr ∈ w1.frustums.live ∧
        (resetToDefault radians w1.data ref).frustum ref = Ref.valid fr ∧
        destroyCamera { w1 with data := resetToDefault radians w1.data ref } ref = some w3 ∧
        w3.calls = w1.calls ++
          [Call.destroyFrustum (Ref.valid fr), Call.destroyComponent ref] ∧
        w3.frustums.live = w1.frustums.live.erase fr ∧ fr ∉ w3.frustums.live) := by
  refine ⟨rfl, rfl, rfl, fun r hr => ?_, fun w w1 entity hreach hcreate => ?_⟩
  · simp [resetToDefault, Function.update_noteq hr]
  · have hinv1 : CascadeInvariant w1 := reachable_invariant (Reachable.create hreach hcreate)
    have hinv2 : CascadeInvariant
        ({ w1 with data := resetToDefault radians w1.data ref } : CameraWorld F V) :=
      CascadeInvariant_of_frustum_eq rfl rfl rfl hinv1
    obtain ⟨fr0, hc, _, _, _⟩ := createCamera_some hcreate
    have hlive : ref ∈ w1.components.live := by
      rw [(SlotAllocator.allocate_some hc).2.2]
      simp
    obtain ⟨w3, fr, hdestroy, hfr, hlive3, hnot, _, _⟩ :=
      destroyCamera_of_live hinv2 (c := ref) hlive
    have hfr1 : w1.data.frustum ref = Ref.valid fr := hfr
    obtain ⟨f', hf1, hf2⟩ := hinv1.2.2.1 ref hlive
    have hff : f' = fr := Ref.valid.inj (hf1.symm.trans hfr1)
    refine ⟨fr, w3, hfr1, hff ▸ hf2, hfr, hdestroy, ?_, hlive3, hnot⟩
    rw [(destroyCamera_some hdestroy).2.2.2]
    show w1.calls ++ [Call.destroyFrustum (w1.data.frustum ref), Call.destroyComponent ref] = _
    rw [hfr1]

/-- Witness of `resetToDefault_frame`: on the example managers `createCamera` returns camera
0 with frustum 0; after the reset the slot still holds frustum 0 and `destroyCamera 0`
destroys it. -/
theorem resetToDefault_frame_witness :
    Reachable exampleCameraWorld ∧
    createCamera exampleCameraWorld 5 = some (0, exampleCameraWorldCreated) ∧
    ∃ fr w3, exampleCameraWorldCreated.data.frustum 0 = Ref.valid fr ∧
      fr ∈ exampleCameraWorldCreated.frustums.live ∧
      (resetToDefault Float32.radians exampleCameraWorldCreated.data 0).frustum 0
        = Ref.valid fr ∧
      destroyCamera
        { exampleCameraWorldCreated with
          data := resetToDefault Float32.radians exampleCameraWorldCreated.data 0 } 0
        = some w3 ∧
      w3.calls = exampleCameraWorldCreated.calls ++
        [Call.destroyFrustum (Ref.valid fr), Call.destroyComponent 0] ∧
      w3.frustums.live = exampleCameraWorldCreated.frustums.live.erase fr ∧
      fr ∉ w3.frustums.live :=
  ⟨Reachable.init 2 2 exampleCameras, rfl,
    (resetToDefault_frame Float32.radians exampleCameras 0).2.2.2.2 exampleCameraWorld
      exampleCameraWorldCreated 5 (Reachable.init 2 2 exampleCameras) rfl⟩

end ResetFrame

/-! ## Ground plane and separation -/

section SwarmRules

open SwarmManager

variable {F Q : Type} [LinearOrderedField F]

theorem flyTowardsCenter_pos (env : SwarmEnv F Q) (p_DeltaT : F) (com : Vec3 F)
    (b : Boid F) : (flyTowardsCenter env p_DeltaT com b).pos = b.pos := by
  unfold flyTowardsCenter
  by_cases h : glm.length env.sqrt (com - b.pos) > env.epsilon
  · simp [h]
  · simp [h]

theorem keepDistanceStep_pos (env : SwarmEnv F Q) (p_DeltaT : F) (boids : List (Boid F))
    (i rng : Nat) (b : Boid F) (k : Nat) :
    (keepDistanceStep env p_DeltaT boids i rng b k).pos = b.pos := by
  unfold keepDistanceStep
  by_cases hk : env.calcRandomNumber (rng + k) % boids.length = k
  · simp [hk]
  · simp only [hk, if_false]
    cases (boids.set i b)[env.calcRandomNumber (rng + k) % boids.length]? with
    | none => rfl
    | some c =>
      by_cases hd : glm.distance2 c.pos b.pos < (boidMinDistSqr : F) ∧
          glm.distance2 c.pos b.pos > env.epsilon
      · simp [hd]
      · simp [hd]

theorem keepDistance_pos (env : SwarmEnv F Q) (p_DeltaT : F) (boids : List (Boid F))
    (i rng : Nat) (b : Boid F) : (keepDistance env p_DeltaT boids i rng b).pos = b.pos := by
  unfold keepDistance
  induction (min 32 boids.length) with
  | zero => rfl
  | succ n ih => rw [foldl_range_succ, keepDistanceStep_pos, ih]

theorem targetNode_pos (env : SwarmEnv F Q) (p_DeltaT : F) (wp : Vec3 F) (b : Boid F) :
    (targetNode env p_DeltaT wp b).pos = b.pos := by
  unfold targetNode
  by_cases h : glm.length env.sqrt (wp - b.pos) > env.epsilon ∧
      glm.length env.sqrt (wp - b.pos) > (minTargetDist : F)
  · simp [h]
  · simp [h]

theorem applyRules_ground (env : SwarmEnv F Q) (p_DeltaT : F) (com avg wp : Vec3 F) (g : F)
    (boids : List (Boid F)) (i rng : Nat) (boid : Boid F) :
    ∃ b4, applyRules env p_DeltaT com avg wp g boids i rng boid = avoidGroundPlane g b4 ∧
      b4.pos = boid.pos :=
  ⟨_, rfl, by
    rw [targetNode_pos]
    show (keepDistance env p_DeltaT boids i rng (flyTowardsCenter env p_DeltaT com boid)).pos
      = boid.pos
    rw [keepDistance_pos, flyTowardsCenter_pos]⟩

theorem ground_step_below (sqrt : F → F) (p_DeltaT g : F) (b : Boid F) (h : b.pos.y < g) :
    (avoidGroundPlane g b).vel.y = 0 ∧ (avoidGroundPlane g b).pos.y = g ∧
    (clampSpeed sqrt (avoidGroundPlane g b)).vel.y = 0 ∧
    (clampSpeed sqrt (avoidGroundPlane g b)).pos.y = g ∧
    (integrate p_DeltaT (clampSpeed sqrt (avoidGroundPlane g b))).vel.y = 0 ∧
    (integrate p_DeltaT (clampSpeed sqrt (avoidGroundPlane g b))).pos.y = g := by
  have hv : (avoidGroundPlane g b).vel.y = 0 := by simp [avoidGroundPlane, h]
  have hp : (avoidGroundPlane g b).pos.y = g := by simp [avoidGroundPlane, h]
  have hcv : (clampSpeed sqrt (avoidGroundPlane g b)).vel.y = 0 := by
    unfold clampSpeed
    by_cases hl : glm.length sqrt (avoidGroundPlane g b).vel > (maxVel : F)
    · simp [hl, hv]
    · simp [hl, hv]
  have hcp : (clampSpeed sqrt (avoidGroundPlane g b)).pos.y = g := by
    rw [clampSpeed_pos]; exact hp
  refine ⟨hv, hp, hcv, hcp, hcv, ?_⟩
  show (clampSpeed sqrt (avoidGroundPlane g b)).pos.y
    + (clampSpeed sqrt (avoidGroundPlane g b)).vel.y * p_DeltaT = g
  rw [hcv, hcp, zero_mul, add_zero]

theorem ground_step_above (g : F) (b : Boid F) (h : g ≤ b.pos.y) :
    avoidGroundPlane g b = b := by
  unfold avoidGroundPlane
  rw [if_neg (not_lt.mpr h)]

theorem simulateBoids_boids (env : SwarmEnv F Q) (p_DeltaT : F) (com avg : Vec3 F)
    (snr : Nat) (g : F) (nodes : List Nat) (s : SimState F Q)
    (hsz : s.boids.length = nodes.length) (n : Nat) (hn : n ≤ s.boids.length) :
    (∀ j, n ≤ j →
      (simulateBoids env p_DeltaT com avg snr g nodes s n).boids[j]? = s.boids[j]?) ∧
    (∀ j, j < n → ∀ boid, s.boids[j]? = some boid →
      ∃ bs rng wp, (simulateBoids env p_DeltaT com avg snr g nodes s n).boids[j]?
        = some (tickBoid env p_DeltaT com avg wp g bs j rng boid)) := by
  induction n with
  | zero =>
    exact ⟨fun j _ => rfl, fun j hj => absurd hj (Nat.not_lt_zero j)⟩
  | succ n ih =>
    obtain ⟨hrest, hdone⟩ := ih (Nat.le_of_succ_le hn)
    have hlen := (simulateBoids_invariant env p_DeltaT com avg snr g nodes s hsz n
      (Nat.le_of_succ_le hn)).1
    have hlt : n < (simulateBoids env p_DeltaT com avg snr g nodes s n).boids.length := by
      rw [hlen]; exact hn
    have hltn : n < nodes.length := by rw [← hsz]; exact hn
    have hcur : (simulateBoids env p_DeltaT com avg snr g nodes s n).boids[n]?
        = some ((simulateBoids env p_DeltaT com avg snr g nodes s n).boids[n]) :=
      List.getElem?_eq_getElem hlt
    have hb := (simulateBoid_eq env p_DeltaT com avg snr g nodes
      (simulateBoids env p_DeltaT com avg snr g nodes s n) n nodes[n]
      ((simulateBoids env p_DeltaT com avg snr g nodes s n).boids[n])
      (List.getElem?_eq_getElem hltn) hcur).1
    rw [simulateBoids_succ, hb]
    refine ⟨fun j hj => ?_, fun j hj boid hboid => ?_⟩
    · have hne : n ≠ j := Nat.ne_of_lt hj
      rw [List.getElem?_set, if_neg hne]
      exact hrest j (Nat.le_of_succ_le hj)
    · by_cases hjn : j = n
      · subst hjn
        have hsame : (simulateBoids env p_DeltaT com avg snr g nodes s j).boids[j] = boid := by
          have h1 := hrest j (le_refl j)
          rw [hcur, hboid] at h1
          exact Option.some.inj h1
        rw [List.getElem?_set, if_pos rfl, if_pos hlt, hsame]
        exact ⟨_, _, _, rfl⟩
      · have hne : n ≠ j := fun h => hjn h.symm
        rw [List.getElem?_set, if_neg hne]
        exact hdone j (lt_of_le_of_ne (Nat.le_of_lt_succ hj) hjn) boid hboid

theorem updateSwarm_boids (env : SwarmEnv F Q) (p_DeltaT : F) (w : SwarmWorld F Q) (r : Nat)
    (hsz : (w.swarm.boids r).length = (w.swarm.nodes r).length) :
    ∃ w', updateSwarm env p_DeltaT w r = some w' ∧
      ∀ j boid, (w.swarm.boids r)[j]? = some boid →
        ∃ bs rng wp, (w'.swarm.boids r)[j]?
          = some (tickBoid env p_DeltaT (w.swarm.currentCenterOfMass r)
              (w.swarm.currentAverageVelocity r) wp
              (groundPlaneHeight env (w.swarm.currentCenterOfMass r)) bs j rng boid) := by
  obtain ⟨_, hdone⟩ := simulateBoids_boids env p_DeltaT
    (w.swarm.currentCenterOfMass r) (w.swarm.currentAverageVelocity r)
    (env.getComponentForEntity (w.swarm.entity r))
    (groundPlaneHeight env (w.swarm.currentCenterOfMass r)) (w.swarm.nodes r)
    (⟨w.swarm.boids r, w.node, w.rng, 0, 0⟩ : SimState F Q) hsz (w.swarm.boids r).length
    (le_refl _)
  simp only at hdone
  simp only [updateSwarm]
  rw [if_pos hsz]
  refine ⟨_, rfl, fun j boid hj => ?_⟩
  simp only [Function.update_same]
  have hlt : j < (w.swarm.boids r).length := by
    by_contra hcon
    rw [List.getElem?_eq_none (not_lt.mp hcon)] at hj
    exact absurd hj (by simp)
  exact hdone j hlt boid hj

theorem updateSwarms_nodup (env : SwarmEnv F Q) (p_DeltaT : F)
    (R : List (Boid F) → Vec3 F → Vec3 F → List (Boid F) → Prop)
    (hR : ∀ (w : SwarmWorld F Q) (r : Nat),
      (w.swarm.boids r).length = (w.swarm.nodes r).length →
      ∃ w', updateSwarm env p_DeltaT w r = some w' ∧
        R (w.swarm.boids r) (w.swarm.currentCenterOfMass r)
          (w.swarm.currentAverageVelocity r) (w'.swarm.boids r))
    (p_Swarms : List Nat) (hnd : p_Swarms.Nodup) (w : SwarmWorld F Q)
    (hsz : ∀ r ∈ p_Swarms, (w.swarm.boids r).length = (w.swarm.nodes r).length) :
    ∃ w', updateSwarms env p_Swarms p_DeltaT w = some w' ∧
      ∀ r ∈ p_Swarms, R (w.swarm.boids r) (w.swarm.currentCenterOfMass r)
        (w.swarm.currentAverageVelocity r) (w'.swarm.boids r) := by
  induction p_Swarms generalizing w with
  | nil => exact ⟨w, rfl, fun r hr => by simp at hr⟩
  | cons a rest ih =>
    have hsza := hsz a (List.mem_cons_self a rest)
    obtain ⟨w1, h1, hR1⟩ := hR w a hsza
    obtain ⟨w1', h1', hlen1, hnodes1, hframe1, _⟩ := updateSwarm_spec env p_DeltaT w a hsza
    have hw1 : w1' = w1 := Option.some.inj (h1'.symm.trans h1)
    subst hw1
    have hsz1 : ∀ r ∈ rest, (w1'.swarm.boids r).length = (w1'.swarm.nodes r).length := by
      intro r hr
      rw [hnodes1]
      by_cases hra : r = a
      · rw [hra, hlen1]; exact hsza
      · rw [(hframe1 r hra).1]; exact hsz r (List.mem_cons_of_mem a hr)
    obtain ⟨w2, h2, hR2⟩ := ih (List.nodup_cons.mp hnd).2 w1' hsz1
    obtain ⟨w2', h2', _, _, hframe2, _⟩ := updateSwarms_forall env p_DeltaT
      (fun _ _ _ => True)
      (fun w r h => by
        obtain ⟨w3, e1, e2, e3, e4, _⟩ := updateSwarm_spec env p_DeltaT w r h
        exact ⟨w3, e1, e2, e3, e4, trivial⟩)
      rest w1' hsz1
    have hw2 : w2' = w2 := Option.some.inj (h2'.symm.trans h2)
    subst hw2
    refine ⟨w2', ?_, fun r hr => ?_⟩
    · unfold updateSwarms at h2 ⊢
      rw [List.foldlM_cons, h1]
      exact h2
    · have hnotin : a ∉ rest := (List.nodup_cons.mp hnd).1
      rcases List.mem_cons.mp hr with hra | hrr
      · rw [hra, (hframe2 a hnotin).1]
        exact hR1
      · have hne : r ≠ a := fun h => hnotin (h ▸ hrr)
        obtain ⟨e1, e2, e3⟩ := hframe1 r hne
        have := hR2 r hrr
        rw [e1, e2, e3] at this
        exact this

/-- C11.  Ground plane.  The height `g` is the `y` of the ray-cast hit point plus 1, or
`-10000000` without a hit.  The four rules leave the position alone, so the `y` tested by the
ground plane step is the one the boid entered the tick with.  For a batch without repeated
swarms whose size assertions hold, `updateSwarms` returns and every boid that entered the
tick with `y < g` leaves it with `vel.y = 0` and `pos.y = g`: the step sets both, the speed
clamp keeps `vel.y = 0` and the integration adds `0 * dt`.  A boid with `y ≥ g` is returned
by the ground plane step as it is. -/
theorem updateSwarms_ground_plane (env : SwarmEnv F Q) (p_Swarms : List Nat)
    (hnd : p_Swarms.Nodup) (p_DeltaT : F) (w : SwarmWorld F Q)
    (hsz : ∀ r ∈ p_Swarms, (w.swarm.boids r).length = (w.swarm.nodes r).length) :
    (∀ com : Vec3 F, groundPlaneHeight env com =
      match env.raycast com ⟨0, -1, 0⟩ 1000 with
      | some distance => com.y + distance * (-1) + 1
      | none => -10000000) ∧
    (∀ (com avg wp : Vec3 F) (g : F) (boids : List (Boid F)) (i rng : Nat) (boid : Boid F),
      ∃ b4, applyRules env p_DeltaT com avg wp g boids i rng boid = avoidGroundPlane g b4 ∧
        b4.pos = boid.pos) ∧
    (∃ w', updateSwarms env p_Swarms p_DeltaT w = some w' ∧
      ∀ r ∈ p_Swarms, ∀ (i : Nat) (boid : Boid F), (w.swarm.boids r)[i]? = some boid →
        boid.pos.y < groundPlaneHeight env (w.swarm.currentCenterOfMass r) →
        ∃ b' : Boid F, (w'.swarm.boids r)[i]? = some b' ∧ b'.vel.y = 0 ∧
          b'.pos.y = groundPlaneHeight env (w.swarm.currentCenterOfMass r)) ∧
    (∀ (g : F) (b : Boid F), b.pos.y < g →
      (avoidGroundPlane g b).vel.y = 0 ∧ (avoidGroundPlane g b).pos.y = g ∧
      (clampSpeed env.sqrt (avoidGroundPlane g b)).vel.y = 0 ∧
      (clampSpeed env.sqrt (avoidGroundPlane g b)).pos.y = g ∧
      (integrate p_DeltaT (clampSpeed env.sqrt (avoidGroundPlane g b))).vel.y = 0 ∧
      (integrate p_DeltaT (clampSpeed env.sqrt (avoidGroundPlane g b))).pos.y = g) ∧
    (∀ (g : F) (b : Boid F), g ≤ b.pos.y → avoidGroundPlane g b = b) := by
  refine ⟨fun com => ?_, applyRules_ground env p_DeltaT, ?_,
    fun g b h => ground_step_below env.sqrt p_DeltaT g b h, ground_step_above⟩
  · unfold groundPlaneHeight
    cases env.raycast com ⟨0, -1, 0⟩ 1000 with
    | none => rfl
    | some distance => rfl
  · exact updateSwarms_nodup env p_DeltaT
      (fun boids0 com0 _ boids1 => ∀ (i : Nat) (boid : Boid F), boids0[i]? = some boid →
        boid.pos.y < groundPlaneHeight env com0 →
        ∃ b' : Boid F, boids1[i]? = some b' ∧ b'.vel.y = 0 ∧
          b'.pos.y = groundPlaneHeight env com0)
      (fun w r h => by
        obtain ⟨w1, h1, hb⟩ := updateSwarm_boids env p_DeltaT w r h
        refine ⟨w1, h1, fun i boid hi hlow => ?_⟩
        obtain ⟨bs, rng, wp, htick⟩ := hb i boid hi
        obtain ⟨b4, hb4, hpos⟩ := applyRules_ground env p_DeltaT
          (w.swarm.currentCenterOfMass r) (w.swarm.currentAverageVelocity r) wp
          (groundPlaneHeight env (w.swarm.currentCenterOfMass r)) bs i rng boid
        have hlow4 : b4.pos.y < groundPlaneHeight env (w.swarm.currentCenterOfMass r) := by
          rw [hpos]; exact hlow
        have hg := ground_step_below env.sqrt p_DeltaT _ b4 hlow4
        refine ⟨_, htick, ?_, ?_⟩
        · unfold tickBoid
          rw [hb4]
          exact hg.2.2.2.2.1
        · unfold tickBoid
          rw [hb4]
          exact hg.2.2.2.2.2)
      p_Swarms hnd w hsz

/-- Witness of `updateSwarms_ground_plane`: the two boids of the example pair start at
`y = 0`, the ray cast from the center of mass hits at distance `1/2`, so `g = 1/2`, and the
first boid is below it. -/
theorem updateSwarms_ground_plane_witness :
    [0].Nodup ∧
    (∀ r ∈ [0], (examplePairSwarms.boids r).length = (examplePairSwarms.nodes r).length) ∧
    (examplePairSwarms.boids 0)[0]? = some ⟨0, 0⟩ ∧
    (⟨0, 0⟩ : Boid ℚ).pos.y
      < groundPlaneHeight exampleGroundEnv (examplePairSwarms.currentCenterOfMass 0) ∧
    ∃ w', updateSwarms exampleGroundEnv [0] 1 ⟨examplePairSwarms, exampleOriginNodes, 0⟩
        = some w' ∧
      ∀ r ∈ [0], ∀ (i : Nat) (boid : Boid ℚ), (examplePairSwarms.boids r)[i]? = some boid →
        boid.pos.y
          < groundPlaneHeight exampleGroundEnv (examplePairSwarms.currentCenterOfMass r) →
        ∃ b' : Boid ℚ, (w'.swarm.boids r)[i]? = some b' ∧ b'.vel.y = 0 ∧
          b'.pos.y
            = groundPlaneHeight exampleGroundEnv (examplePairSwarms.currentCenterOfMass r) :=
  ⟨by decide, by decide, rfl, by decide!,
    (updateSwarms_ground_plane exampleGroundEnv [0] (by decide) 1
      ⟨examplePairSwarms, exampleOriginNodes, 0⟩ (by decide)).2.2.1⟩

theorem keepDistanceStep_of_draw_eq_counter (env : SwarmEnv F Q) (p_DeltaT : F)
    (boids : List (Boid F)) (i rng : Nat) (boid : Boid F) (k : Nat)
    (h : env.calcRandomNumber (rng + k) % boids.length = k) :
    keepDistanceStep env p_DeltaT boids i rng boid k = boid := by
  unfold keepDistanceStep
  simp [h]

/-- C12, evaluation at the failing input.  Swarm 0 of the example pair: boid 0 at the origin,
boid 1 at `(1, 0, 0)`, both at rest; the random source returns 0, 1, 2, 3 on successive
calls.  For boid 0 the pass with loop counter 1 draws index 1: a peer, not the boid's own
index, at squared distance 1, between epsilon and 64, for which the repulsion term is
`(-3, 0, 0)`.  The pass returns the boid unchanged, because the drawn index equals the loop
counter; the same drawn index in the pass with counter 0 does add the term.  The whole rule
leaves boid 0 at rest, and after the tick boid 0 is still at rest at the origin. -/
theorem keepDistance_skips_peer_at_loop_counter :
    exampleSwarmEnv.calcRandomNumber (0 + 1) % (examplePairSwarms.boids 0).length = 1 ∧
    (examplePairSwarms.boids 0)[1]? = some ⟨⟨1, 0, 0⟩, 0⟩ ∧
    glm.distance2 (⟨1, 0, 0⟩ : Vec3 ℚ) 0 = 1 ∧
    (1 : ℚ) < SwarmManager.boidMinDistSqr ∧ (1 : ℚ) > exampleSwarmEnv.epsilon ∧
    (SwarmManager.boidAcc : ℚ) * glm.normalize exampleSwarmEnv.sqrt ((⟨1, 0, 0⟩ : Vec3 ℚ) - 0)
        * (-1 : ℚ) * (1 : ℚ) * (SwarmManager.distanceRuleWeight : ℚ) = ⟨-3, 0, 0⟩ ∧
    keepDistanceStep exampleSwarmEnv 1 (examplePairSwarms.boids 0) 0 0 ⟨0, 0⟩ 1 = ⟨0, 0⟩ ∧
    keepDistanceStep exampleSwarmEnv 1 (examplePairSwarms.boids 0) 0 1 ⟨0, 0⟩ 0
      = ⟨0, ⟨-3, 0, 0⟩⟩ ∧
    keepDistance exampleSwarmEnv 1 (examplePairSwarms.boids 0) 0 0 ⟨0, 0⟩ = ⟨0, 0⟩ ∧
    (updateSwarms exampleSwarmEnv [0] 1 ⟨examplePairSwarms, exampleOriginNodes, 0⟩).map
        (fun w => w.swarm.boids 0)
      = some [⟨0, 0⟩, ⟨⟨-34 / 5, 0, 0⟩, ⟨-39 / 5, 0, 0⟩⟩] := by
  refine ⟨by decide, rfl, by decide!, by decide!, by decide!, by decide!, by decide!,
    by decide!, by decide!, by decide!⟩

end SwarmRules

/-! ## The speed clamp -/

section SpeedClamp

open SwarmManager

variable {F Q : Type} [LinearOrderedField F]

theorem simulateBoids_boids_exact (env : SwarmEnv F Q) (p_DeltaT : F) (com avg : Vec3 F)
    (snr : Nat) (g : F) (nodes : List Nat) (s : SimState F Q)
    (hsz : s.boids.length = nodes.length) (n : Nat) (hn : n ≤ s.boids.length) :
    ∀ j, j < n → ∀ boid, s.boids[j]? = some boid →
      (simulateBoids env p_DeltaT com avg snr g nodes s n).boids[j]?
        = some (tickBoid env p_DeltaT com avg
            ((simulateBoids env p_DeltaT com avg snr g nodes s j).nodeData.worldPosition snr) g
            (simulateBoids env p_DeltaT com avg snr g nodes s j).boids j
            (simulateBoids env p_DeltaT com avg snr g nodes s j).rng boid) := by
  induction n with
  | zero => exact fun j hj => absurd hj (Nat.not_lt_zero j)
  | succ n ih =>
    have hdone := ih (Nat.le_of_succ_le hn)
    have hrest := (simulateBoids_boids env p_DeltaT com avg snr g nodes s hsz n
      (Nat.le_of_succ_le hn)).1
    have hlen := (simulateBoids_invariant env p_DeltaT com avg snr g nodes s hsz n
      (Nat.le_of_succ_le hn)).1
    have hlt : n < (simulateBoids env p_DeltaT com avg snr g nodes s n).boids.length := by
      rw [hlen]; exact hn
    have hltn : n < nodes.length := by rw [← hsz]; exact hn
    have hcur : (simulateBoids env p_DeltaT com avg snr g nodes s n).boids[n]?
        = some ((simulateBoids env p_DeltaT com avg snr g nodes s n).boids[n]) :=
      List.getElem?_eq_getElem hlt
    have hb := (simulateBoid_eq env p_DeltaT com avg snr g nodes
      (simulateBoids env p_DeltaT com avg snr g nodes s n) n nodes[n]
      ((simulateBoids env p_DeltaT com avg snr g nodes s n).boids[n])
      (List.getElem?_eq_getElem hltn) hcur).1
    intro j hj boid hboid
    rw [simulateBoids_succ, hb]
    by_cases hjn : j = n
    · subst hjn
      have hsame : (simulateBoids env p_DeltaT com avg snr g nodes s j).boids[j] = boid := by
        have h1 := hrest j (le_refl j)
        rw [hcur, hboid] at h1
        exact Option.some.inj h1
      rw [List.getElem?_set, if_pos rfl, if_pos hlt, hsame]
    · have hne : n ≠ j := fun h => hjn h.symm
      rw [List.getElem?_set, if_neg hne]
      exact hdone j (lt_of_le_of_ne (Nat.le_of_lt_succ hj) hjn) boid hboid

theorem updateSwarms_singleton (env : SwarmEnv F Q) (p_DeltaT : F) (w : SwarmWorld F Q)
    (r : Nat) : updateSwarms env [r] p_DeltaT w = updateSwarm env p_DeltaT w r := by
  unfold updateSwarms
  rw [List.foldlM_cons]
  cases updateSwarm env p_DeltaT w r with
  | none => rfl
  | some w1 => rfl

theorem updateSwarm_boids_exact (env : SwarmEnv F Q) (p_DeltaT : F) (w : SwarmWorld F Q)
    (r : Nat) (hsz : (w.swarm.boids r).length = (w.swarm.nodes r).length) :
    ∃ w1, updateSwarms env [r] p_DeltaT w = some w1 ∧
      ∀ (i : Nat) (boid : Boid F), (w.swarm.boids r)[i]? = some boid →
        (w1.swarm.boids r)[i]? = some (integrate p_DeltaT (clampSpeed env.sqrt
          (applyRules env p_DeltaT (w.swarm.currentCenterOfMass r)
            (w.swarm.currentAverageVelocity r)
            ((simulateBoids env p_DeltaT (w.swarm.currentCenterOfMass r)
              (w.swarm.currentAverageVelocity r)
              (env.getComponentForEntity (w.swarm.entity r))
              (groundPlaneHeight env (w.swarm.currentCenterOfMass r)) (w.swarm.nodes r)
              ⟨w.swarm.boids r, w.node, w.rng, 0, 0⟩ i).nodeData.worldPosition
                (env.getComponentForEntity (w.swarm.entity r)))
            (groundPlaneHeight env (w.swarm.currentCenterOfMass r))
            (simulateBoids env p_DeltaT (w.swarm.currentCenterOfMass r)
              (w.swarm.currentAverageVelocity r)
              (env.getComponentForEntity (w.swarm.entity r))
              (groundPlaneHeight env (w.swarm.currentCenterOfMass r)) (w.swarm.nodes r)
              ⟨w.swarm.boids r, w.node, w.rng, 0, 0⟩ i).boids
            i
            (simulateBoids env p_DeltaT (w.swarm.currentCenterOfMass r)
              (w.swarm.currentAverageVelocity r)
              (env.getComponentForEntity (w.swarm.entity r))
              (groundPlaneHeight env (w.swarm.currentCenterOfMass r)) (w.swarm.nodes r)
              ⟨w.swarm.boids r, w.node, w.rng, 0, 0⟩ i).rng
            boid))) := by
  have hdone := simulateBoids_boids_exact env p_DeltaT
    (w.swarm.currentCenterOfMass r) (w.swarm.currentAverageVelocity r)
    (env.getComponentForEntity (w.swarm.entity r))
    (groundPlaneHeight env (w.swarm.currentCenterOfMass r)) (w.swarm.nodes r)
    (⟨w.swarm.boids r, w.node, w.rng, 0, 0⟩ : SimState F Q) hsz (w.swarm.boids r).length
    (le_refl _)
  simp only at hdone
  rw [updateSwarms_singleton]
  simp only [updateSwarm]
  rw [if_pos hsz]
  refine ⟨_, rfl, fun i boid hi => ?_⟩
  simp only [Function.update_same]
  have hlt : i < (w.swarm.boids r).length := by
    by_contra hcon
    rw [List.getElem?_eq_none (not_lt.mp hcon)] at hi
    exact absurd hi (by simp)
  exact hdone i hlt boid hi

theorem glm.length_sub_self (sqrt : F → F) (h0 : sqrt 0 = 0) (p : Vec3 F) :
    glm.length sqrt (p - p) = 0 := by
  unfold glm.length glm.dot
  simp [h0]

theorem applyRules_of_still (env : SwarmEnv F Q) (h0 : env.sqrt 0 = 0)
    (heps : 0 ≤ env.epsilon) (p_DeltaT g : F) (bs : List (Boid F)) (hbs : bs.length = 1)
    (i rng : Nat) (boid : Boid F) (hg : g ≤ boid.pos.y) :
    applyRules env p_DeltaT boid.pos boid.vel boid.pos g bs i rng boid = boid := by
  have hfly : flyTowardsCenter env p_DeltaT boid.pos boid = boid := by
    unfold flyTowardsCenter
    simp [glm.length_sub_self env.sqrt h0, not_lt.mpr heps]
  have hkeep : keepDistance env p_DeltaT bs i rng boid = boid := by
    unfold keepDistance
    rw [hbs]
    show (List.range 1).foldl (keepDistanceStep env p_DeltaT bs i rng) boid = boid
    rw [foldl_range_succ]
    exact keepDistanceStep_of_draw_eq_counter env p_DeltaT bs i rng boid 0
      (by rw [hbs]; exact Nat.mod_one _)
  have hmatch : matchVelocities p_DeltaT boid.vel boid = boid := by
    unfold matchVelocities
    cases boid with
    | mk pos vel =>
      congr 1
      apply Vec3.eq_of_components <;> simp
  have htarget : targetNode env p_DeltaT boid.pos boid = boid := by
    unfold targetNode
    simp [glm.length_sub_self env.sqrt h0, not_lt.mpr heps]
  unfold applyRules
  simp only [hfly, hkeep, hmatch, htarget]
  exact ground_step_above g boid hg

end SpeedClamp

section SpeedClampClaim

open SwarmManager

variable {F Q : Type} [LinearOrderedField F]

end SpeedClampClaim

section SpeedClampWitness

open SwarmManager

end SpeedClampWitness

end Intrinsic
